import Mathlib

/-!
Verification of the V vulkan bindings generator.

This file is a shallow embedding of the translation routines of
`src/vgenerator.py` (the current generator, class `VOutputGenerator`) and
`src/vgenerator_bk.py` (the backup generator).  Python strings are embedded
as Lean `String`; Python string methods (`lower`, `startswith`, `replace`,
slicing, `in`) are reimplemented below on ASCII data with the same
semantics; the two regular expressions used for name mangling are
implemented as direct character scans equivalent to the Python `re`
behaviour on the patterns in question (single-character matches with
look-around, documented at each definition).  Stateful methods are
embedded as explicit state-passing functions; calls to `logMsg('error', ...)`
followed by `exit(1)` are embedded as `Except.error`.
-/

namespace VVK

/-- ASCII lower-case letter test, the character class `[a-z]`. -/
def isLowerAZ (c : Char) : Bool := 'a' ≤ c && c ≤ 'z'

/-- ASCII upper-case letter test, the character class `[A-Z]`. -/
def isUpperAZ (c : Char) : Bool := 'A' ≤ c && c ≤ 'Z'

/-- ASCII digit test, the character class `[0-9]`. -/
def isDigit09 (c : Char) : Bool := '0' ≤ c && c ≤ '9'

/-- ASCII lower-casing of one character, as Python `str.lower` acts on ASCII. -/
def lowerChar (c : Char) : Char := if isUpperAZ c then Char.ofNat (c.toNat + 32) else c

/-- Python `s.lower()` on ASCII strings. -/
def pyLower (s : String) : String := String.mk (s.toList.map lowerChar)

/-- ASCII upper-casing of one character, as Python `str.upper` acts on ASCII. -/
def upperChar (c : Char) : Char := if isLowerAZ c then Char.ofNat (c.toNat - 32) else c

/-- Python `s.upper()` on ASCII strings. -/
def pyUpper (s : String) : String := String.mk (s.toList.map upperChar)

/-- Python `s.startswith(p)`. -/
def pyStartsWith (s p : String) : Bool := p.toList.isPrefixOf s.toList

/-- Python `s.endswith(p)`. -/
def pyEndsWith (s p : String) : Bool := p.toList.isSuffixOf s.toList

/-- Helper for substring search: does `p` occur in the list? -/
def subAux (p : List Char) : List Char → Bool
  | [] => p.isEmpty
  | c :: t => p.isPrefixOf (c :: t) || subAux p t

/-- Python `p in s` (substring containment). -/
def pyContains (s p : String) : Bool := subAux p.toList s.toList

/-- Python slicing `s[n:]`. -/
def pyDrop (s : String) (n : Nat) : String := String.mk (s.toList.drop n)

/-- Python slicing `s[:n]` for `n ≥ 0`. -/
def pyTake (s : String) (n : Nat) : String := String.mk (s.toList.take n)

/-- Helper for `pyReplace`: left-to-right non-overlapping replacement of `p`
by `r`.  The `Nat` argument is fuel; every step consumes at least one input
character (the callers never pass an empty pattern), so fuel equal to the
input length makes the function total and structurally recursive, which
keeps it kernel-reducible. -/
def replAux (p r : List Char) : Nat → List Char → List Char
  | _, [] => []
  | 0, l => l
  | Nat.succ n, c :: t =>
    if p.isPrefixOf (c :: t) then r ++ replAux p r n ((c :: t).drop p.length)
    else c :: replAux p r n t

/-- Python `s.replace(pat, rep)` (all non-overlapping occurrences, left to
right).  Never called with an empty `pat` in this development. -/
def pyReplace (s pat rep : String) : String :=
  String.mk (replAux pat.toList rep.toList s.toList.length s.toList)

/-- Python `s.count(c)` for a single-character needle. -/
def pyCountChar (s : String) (c : Char) : Nat := s.toList.count c

/-- Python whitespace test for `str.strip()`. -/
def isPySpace (c : Char) : Bool :=
  c = ' ' || c = '\t' || c = '\n' || c = '\r' || c = '\x0b' || c = '\x0c'

/-- Python `s.strip()`. -/
def pyStrip (s : String) : String :=
  String.mk (((s.toList.dropWhile isPySpace).reverse.dropWhile isPySpace).reverse)

/-- Python `s.lstrip('&')`. -/
def pyLstripAmp (s : String) : String := String.mk (s.toList.dropWhile (· = '&'))

/-- Helper for `pySplitChar`. -/
def splitCharAux (sep : Char) : List Char → List (List Char)
  | [] => [[]]
  | c :: t =>
    match splitCharAux sep t with
    | [] => [[]]
    | h :: rest => if c = sep then [] :: h :: rest else (c :: h) :: rest

/-- Python `s.split(sep)` for a one-character separator. -/
def pySplitChar (s : String) (sep : Char) : List String :=
  (splitCharAux sep s.toList).map String.mk

/-- Python `sep.join(l)` for list of strings. -/
def pyJoin (sep : String) (l : List String) : String := String.intercalate sep l

/-- Python truthiness of a string (`if s:`): non-empty. -/
def pyTruthy (s : String) : Bool := !(s = "")

/-- Python truthiness of an optional string (`None` and `''` are falsy). -/
def pyTruthyOpt (s : Option String) : Bool :=
  match s with
  | none => false
  | some s => pyTruthy s

/-- Python `noneStr`: `None` becomes the empty string (helper from the
external framework, used pervasively by the generator). -/
def noneStr (s : Option String) : String := s.getD ""

/-!
## Name demangling and case folding

`removeVk` of `src/vgenerator.py` (lines 1030-1037).  The method early-returns
`v[2:]` for the two boolean spellings and otherwise applies two sequential
strips: first `vk_` (three characters), then — on the already stripped
value — `vk` (two characters).
-/

/-- Second strip of `removeVk`: `if v.lower().startswith('vk'): v = v[2:]`
applied to the value left by the first strip. -/
def removeVk_step2 (s : String) : String :=
  if pyStartsWith (pyLower s) "vk" then pyDrop s 2 else s

/-- First strip of `removeVk`: `if v.lower().startswith('vk_'): v = v[3:]`. -/
def removeVk_step1 (s : String) : String :=
  if pyStartsWith (pyLower s) "vk_" then pyDrop s 3 else s

/-- `VOutputGenerator.removeVk` (src/vgenerator.py lines 1030-1037). -/
def removeVk (s : String) : String :=
  if pyLower s = "vk_true" ∨ pyLower s = "vk_false" then pyDrop s 2
  else removeVk_step2 (removeVk_step1 s)

/-- First strip of the backup `removeVk`: strips `vk_` unless the remainder
spells `true`/`false` (src/vgenerator_bk.py lines 611-612). -/
def removeVk_bk_step1 (s : String) : String :=
  if pyStartsWith (pyLower s) "vk_" &&
     !(pyLower (pyDrop s 3) = "true" || pyLower (pyDrop s 3) = "false") then pyDrop s 3 else s

/-- Second strip of the backup `removeVk`: strips `vk` unless the remainder
spells `true`/`false` (src/vgenerator_bk.py lines 613-614). -/
def removeVk_bk_step2 (s : String) : String :=
  if pyStartsWith (pyLower s) "vk" &&
     !(pyLower (pyDrop s 2) = "true" || pyLower (pyDrop s 2) = "false") then pyDrop s 2 else s

/-- Third strip of the backup `removeVk`: rewrites a `C.Vk` prefix to `C.`
unless the remainder spells `true`/`false` (src/vgenerator_bk.py
lines 615-616). -/
def removeVk_bk_step3 (s : String) : String :=
  if pyStartsWith (pyLower s) "c.vk" &&
     !(pyLower (pyDrop s 4) = "true" || pyLower (pyDrop s 4) = "false") then "C." ++ pyDrop s 4
  else s

/-- `VOutputGeneratorBk.removeVk` (src/vgenerator_bk.py lines 607-617): the
boolean spellings are returned unchanged, and a third `C.Vk` strip exists. -/
def removeVk_bk (s : String) : String :=
  if pyLower s = "vk_true" ∨ pyLower s = "vk_false" then s
  else removeVk_bk_step3 (removeVk_bk_step2 (removeVk_bk_step1 s))

/-- One pass of `CAMEL_TO_SNAKE_CASE_REGEX.sub(r'_\1', s)`
(pattern `((?<=[a-z0-9])[A-Z]|(?!^)[A-Z](?=[a-z]))`, src/vgenerator.py
line 221).  Every match of the pattern is a single upper-case character
whose context satisfies one of the two look-around alternatives; since each
match consumes exactly one character and the look-arounds inspect the
original text, the substitution is a per-character scan carrying the
previous original character. -/
def camelGo : Option Char → List Char → List Char
  | _, [] => []
  | prev, c :: rest =>
    let behind := match prev with
      | some p => isLowerAZ p || isDigit09 p
      | none => false
    let ahead := prev.isSome && (match rest with
      | n :: _ => isLowerAZ n
      | [] => false)
    if isUpperAZ c && (behind || ahead) then '_' :: c :: camelGo (some c) rest
    else c :: camelGo (some c) rest

/-- `VOutputGenerator.v_camel_to_snake_case` (src/vgenerator.py
lines 1085-1086): regex substitution followed by `lower()`. -/
def v_camel_to_snake_case (s : String) : String :=
  pyLower (String.mk (camelGo none s.toList))

/-- `VOutputGeneratorBk.v_camel_to_snake_case` (src/vgenerator_bk.py
lines 1317-1318), built on the identical regex (line 414 there). -/
def v_camel_to_snake_case_bk (s : String) : String :=
  pyLower (String.mk (camelGo none s.toList))

/-!
## Shared data tables (src/vgenerator.py lines 188-358)

Class-level literal tables of `VOutputGenerator`, transcribed verbatim.
-/

/-- `VOutputGenerator.TYPE_SECTIONS` (src/vgenerator.py lines 191-192). -/
def TYPE_SECTIONS : List String :=
  ["include", "define", "basetype", "handle", "enum", "group", "bitmask", "funcpointer", "struct"]

/-- `VOutputGenerator.ALL_SECTIONS` (src/vgenerator.py line 193). -/
def ALL_SECTIONS : List String := TYPE_SECTIONS ++ ["commandPointer", "command"]

/-- `VOutputGenerator.BASE_TYPES_ARR` (src/vgenerator.py lines 196-206). -/
def BASE_TYPES_ARR : List String :=
  ["u32", "u64", "usize", "f32", "i32", "int", "u16", "char", "voidptr"]

/-- `VOutputGenerator.REPLACEMENT_CONTAINS_ARR` (src/vgenerator.py lines 331-354),
the replacement trigger list. -/
def REPLACEMENT_CONTAINS_ARR : List String := [
  "STD_VIDEO_DECODE_H264_FIELD_ORDER_COUNT_LIST_SIZE",
  "VK_MAKE_VIDEO_STD_VERSION(major, minor, patch)",
  "VK_STD_VULKAN_VIDEO_CODEC_H264_DECODE_API_VERSION_1_0_0",
  "#define VK_STD_VULKAN_VIDEO_CODEC_H264_ENCODE_API_VERSION_1_0_0 VK_MAKE_VIDEO_STD_VERSION(1, 0, 0)",
  "#define VK_STD_VULKAN_VIDEO_CODEC_H265_DECODE_API_VERSION_1_0_0 VK_MAKE_VIDEO_STD_VERSION(1, 0, 0)",
  "VK_STD_VULKAN_VIDEO_CODEC_AV1_DECODE_API_VERSION_1_0_0",
  "VK_STD_VULKAN_VIDEO_CODEC_AV1_ENCODE_API_VERSION_1_0_0",
  "#define VK_DEFINE_HANDLE",
  "\n#ifndef VK_DEFINE_NON_DISPATCHABLE_HANDLE\n    #if (VK_USE_64_BIT_PTR_DEFINES==1)\n        #if (defined(__cplusplus) && (__cplusplus >= 201103L)) || (defined(_MSVC_LANG) && (_MSVC_LANG >= 201103L))\n            #define VK_NULL_HANDLE nullptr\n        #else\n            #define VK_NULL_HANDLE ((void*)0)\n        #endif\n    #else\n        #define VK_NULL_HANDLE 0ULL\n    #endif\n#endif\n#ifndef VK_NULL_HANDLE\n    #define VK_NULL_HANDLE 0\n#endif",
  "\n#ifndef VK_USE_64_BIT_PTR_DEFINES\n    #if defined(__LP64__) || defined(_WIN64) || (defined(__x86_64__) && !defined(__ILP32__) ) || defined(_M_X64) || defined(__ia64) || defined (_M_IA64) || defined(__aarch64__) || defined(__powerpc64__) || (defined(__riscv) && __riscv_xlen == 64)\n        #define VK_USE_64_BIT_PTR_DEFINES 1\n    #else\n        #define VK_USE_64_BIT_PTR_DEFINES 0\n    #endif\n#endif",
  "\n#ifndef VK_DEFINE_NON_DISPATCHABLE_HANDLE\n    #if (VK_USE_64_BIT_PTR_DEFINES==1)\n        #define VK_DEFINE_NON_DISPATCHABLE_HANDLE(object) typedef struct object##_T *object;\n    #else\n        #define VK_DEFINE_NON_DISPATCHABLE_HANDLE(object) typedef uint64_t object;\n    #endif\n#endif",
  "#define VK_MAKE_API_VERSION(variant, major, minor, patch)",
  "#define VK_API_VERSION_1_0",
  "#define VK_HEADER_VERSION_COMPLETE",
  "#define VK_MAKE_VERSION",
  "#define VK_VERSION_MAJOR",
  "#define VK_VERSION_MINOR",
  "#define VK_VERSION_PATCH",
  "#define VK_API_VERSION_VARIANT",
  "#define VK_API_VERSION_MAJOR",
  "#define VK_API_VERSION_MINOR",
  "#define VK_API_VERSION_PATCH"]

def REPLACEMENT_MAP : List (String × String) := [
  ("#if !defined(VK_NO_STDINT_H)\n    #include <stdint.h>\n#endif\n",
   ""),
  ("\n#define VK_DEFINE_HANDLE(object) typedef struct object##_T* object;\n",
   ""),
  ("\n#ifndef VK_USE_64_BIT_PTR_DEFINES\n    #if defined(__LP64__) || defined(_WIN64) || (defined(__x86_64__) && !defined(__ILP32__) ) || defined(_M_X64) || defined(__ia64) || defined (_M_IA64) || defined(__aarch64__) || defined(__powerpc64__) || (defined(__riscv) && __riscv_xlen == 64)\n        #define VK_USE_64_BIT_PTR_DEFINES 1\n    #else\n        #define VK_USE_64_BIT_PTR_DEFINES 0\n    #endif\n#endif\n",
   ""),
  ("\n#ifndef VK_DEFINE_NON_DISPATCHABLE_HANDLE\n    #if (VK_USE_64_BIT_PTR_DEFINES==1)\n        #if (defined(__cplusplus) && (__cplusplus >= 201103L)) || (defined(_MSVC_LANG) && (_MSVC_LANG >= 201103L))\n            #define VK_NULL_HANDLE nullptr\n        #else\n            #define VK_NULL_HANDLE ((void*)0)\n        #endif\n    #else\n        #define VK_NULL_HANDLE 0ULL\n    #endif\n#endif\n#ifndef VK_NULL_HANDLE\n    #define VK_NULL_HANDLE 0\n#endif\n",
   ""),
  ("\n#ifndef VK_DEFINE_NON_DISPATCHABLE_HANDLE\n    #if (VK_USE_64_BIT_PTR_DEFINES==1)\n        #define VK_DEFINE_NON_DISPATCHABLE_HANDLE(object) typedef struct object##_T *object;\n    #else\n        #define VK_DEFINE_NON_DISPATCHABLE_HANDLE(object) typedef uint64_t object;\n    #endif\n#endif\n",
   ""),
  ("// VK_MAKE_VERSION is deprecated, but no reason was given in the API XML\n// DEPRECATED: This define is deprecated. VK_MAKE_API_VERSION should be used instead.\n#define VK_MAKE_VERSION(major, minor, patch) \\\n    ((((uint32_t)(major)) << 22U) | (((uint32_t)(minor)) << 12U) | ((uint32_t)(patch)))\n",
   ""),
  ("// VK_VERSION_MAJOR is deprecated, but no reason was given in the API XML\n// DEPRECATED: This define is deprecated. VK_API_VERSION_MAJOR should be used instead.\n#define VK_VERSION_MAJOR(version) ((uint32_t)(version) >> 22U)\n",
   ""),
  ("// VK_VERSION_MINOR is deprecated, but no reason was given in the API XML\n// DEPRECATED: This define is deprecated. VK_API_VERSION_MINOR should be used instead.\n#define VK_VERSION_MINOR(version) (((uint32_t)(version) >> 12U) & 0x3FFU)\n",
   ""),
  ("// VK_VERSION_PATCH is deprecated, but no reason was given in the API XML\n// DEPRECATED: This define is deprecated. VK_API_VERSION_PATCH should be used instead.\n#define VK_VERSION_PATCH(version) ((uint32_t)(version) & 0xFFFU)\n",
   "")]

/-- `VOutputGenerator.TYPE_MAP` (src/vgenerator.py lines 243-266). -/
def TYPE_MAP : List (String × String) := [
  ("size_t", "usize"),
  ("void*", "voidptr"),
  ("&void", "voidptr"),
  ("void**", "&voidptr"),
  ("void", ""),
  ("uint8_t", "u8"),
  ("uint16_t", "u16"),
  ("uint32_t", "u32"),
  ("uint64_t", "u64"),
  ("int8_t", "i8"),
  ("int16_t", "i16"),
  ("int32_t", "i32"),
  ("int64_t", "i64"),
  ("double", "f64"),
  ("byte*", "&u8"),
  ("char*", "&char"),
  ("char**", "&&char"),
  ("float", "f32"),
  ("float*", "&f32"),
  ("char* const*", "&&char"),
  ("float64", "f64"),
  ("float64*", "&f64")]

/-!
## Python dictionary and state embedding

Python dictionaries are embedded as association lists with first-match
lookup; literal dictionaries have distinct keys.  `dictSet` updates an
existing key in place (preserving insertion order) and appends a new key at
the end, which is exactly the CPython dict behaviour the generator relies
on.
-/

/-- Python `d[k]` as an optional lookup. -/
def dictGet (d : List (String × String)) (k : String) : Option String :=
  (d.find? (fun p => p.1 = k)).map (fun p => p.2)

/-- Python `k in d`. -/
def dictHasKey (d : List (String × String)) (k : String) : Bool :=
  d.any (fun p => p.1 = k)

/-- Python `d[k] = v` (update in place or append). -/
def dictSet (d : List (String × String)) (k v : String) : List (String × String) :=
  if d.any (fun p => p.1 = k) then d.map (fun p => if p.1 = k then (p.1, v) else p)
  else d ++ [(k, v)]

/-- Append `v` to the list stored under key `k`; `none` when the key is
absent (Python raises `KeyError` there). -/
def dictListAppend (d : List (String × List String)) (k : String) (v : String) :
    Option (List (String × List String)) :=
  if d.any (fun p => p.1 = k) then
    some (d.map (fun p => if p.1 = k then (p.1, p.2 ++ [v]) else p))
  else none

/-- Lookup in the section table (the table always holds every key of
`ALL_SECTIONS` after a reset). -/
def sectionsGet (d : List (String × List String)) (k : String) : List String :=
  ((d.find? (fun p => p.1 = k)).map (fun p => p.2)).getD []

/-- Mutable translation state of one `VOutputGenerator` run: the section
table and feature flag (instance attributes set in `__init__`,
src/vgenerator.py lines 360-365) together with the accumulator tables
(class attributes, lines 211, 235, 241, 325, 327, 358; see the dedicated
Python-attribute model further below for their class-level sharing). -/
structure GenState where
  sections : List (String × List String)
  feature_not_empty : Bool
  replacement_exact_text_arr : List String
  structure_types : List String
  enum_types : List String
  alias_to_base_type_map : List (String × String)
  c_struct_arr : List String
  c_struct_arr_with_vk : List String
  deriving Repr, DecidableEq

/-- Fresh section table, `{section: [] for section in self.ALL_SECTIONS}`
(src/vgenerator.py lines 363 and 434). -/
def initSections : List (String × List String) := ALL_SECTIONS.map (fun s => (s, []))

/-- State created by `__init__` together with the pristine class tables. -/
def initGenState : GenState :=
  { sections := initSections
    feature_not_empty := false
    replacement_exact_text_arr := []
    structure_types := []
    enum_types := []
    alias_to_base_type_map := []
    c_struct_arr := []
    c_struct_arr_with_vk := [] }

/-- `VOutputGenerator.beginFeature` effect on the embedded state
(src/vgenerator.py lines 434-435): reset the section table and the
feature flag; the accumulator tables are untouched. -/
def beginFeatureReset (st : GenState) : GenState :=
  { st with sections := initSections, feature_not_empty := false }

/-!
## appendSection, escStr and the side file (src/vgenerator.py lines 405-424, 520-542, 2026-2027)
-/

/-- `VOutputGenerator.escStr` (src/vgenerator.py lines 2026-2027):
`text.replace(r'\\', '\\\\').replace(r'\n', '\\n')`.  Both raw-string
patterns are equal to their replacements (`r'\\'` is the two-character
string backslash-backslash, as is `'\\\\'`; likewise for `r'\n'` and
`'\\n'`), so the method is the identity; it is transcribed anyway and
the identity is proved as a theorem below. -/
def escStr (text : String) : String :=
  pyReplace (pyReplace text "\\" "\\") "\n" "\n"

/-- The compiler-defect workaround of `appendSection` (src/vgenerator.py
lines 531-532): the two affected command wrappers are commented out. -/
def appendSectionWrap (text : String) : String :=
  if pyContains text "pub fn cmd_set_fragment_shading_rate_enum_nv" ||
     pyContains text "pub fn cmd_set_fragment_shading_rate_khr" then
    "/*" ++ text ++ "*/"
  else text

/-- `VOutputGenerator.appendSection` (src/vgenerator.py lines 520-542).
`logMsg('error', ...); exit(1)` for a missing section name and the
`KeyError` a Python dict access would raise for an unknown section name
are both embedded as `Except.error` (either way the process dies). -/
def appendSection (st : GenState) (sectionOpt : Option String) (text : String) :
    Except String GenState :=
  match sectionOpt with
  | none => Except.error "Missing section in appendSection"
  | some sec =>
    let text := appendSectionWrap text
    let esc_text := escStr text
    let captures := (REPLACEMENT_CONTAINS_ARR.filter (fun tr => pyContains text tr)).map
      (fun _ => esc_text)
    let st := { st with replacement_exact_text_arr := st.replacement_exact_text_arr ++ captures }
    let text :=
      match dictGet REPLACEMENT_MAP esc_text with
      | some v => v
      | none => text
    match dictListAppend st.sections sec text with
    | none => Except.error "KeyError"
    | some secs => Except.ok { st with sections := secs, feature_not_empty := true }

/-- Run a sequence of `appendSection` calls (one feature worth of fragment
deliveries). -/
def runAppendList (st : GenState) (calls : List (Option String × String)) :
    Except String GenState :=
  calls.foldlM (fun st c => appendSection st c.1 c.2) st

/-- Key escaping applied by `endFile` when exporting a captured fragment
(src/vgenerator.py lines 421-422): `escStr` again, then backslashes doubled,
then newlines rendered as the two-character sequence backslash-`n`. -/
def endFileEsc (itm : String) : String :=
  pyReplace (pyReplace (escStr itm) "\\" "\\\\") "\n" "\\n"

/-- The `key_strings` accumulator of `VOutputGenerator.endFile`
(src/vgenerator.py lines 418-422). -/
def endFile_key_strings (arr : List String) : String :=
  arr.foldl (fun ks itm => ks ++ "'" ++ endFileEsc itm ++ "':\n    '',\n    ") ""

/-- The fixed leading text of the side file written by `endFile`
(src/vgenerator.py lines 423-424), up to the interpolated `key_strings`. -/
def sideFileHeader : String :=
  "# This mapping contains exact C code (key), which will be replaced with the corresponding V code (value). Use the key in REPLACEMENT_MAP in src/vgenerator.py.\n# genType will then replace c_body with v_body.\n# Check REPLACEMENT_CONTAINS_ARR to add another key.\nREPLACEMENT_MAP = \x7b\n    "

/-- The full text written to `REPLACEMENT_MAP.txt` by
`VOutputGenerator.endFile` (src/vgenerator.py lines 417-424); `{{`/`}}` in
the Python format string denote literal braces and `{}` receives
`key_strings`. -/
def endFile_content (arr : List String) : String :=
  sideFileHeader ++ endFile_key_strings arr ++ "\n\x7d"

/-- One side-file entry as the specification describes it: the escaped key
with an empty placeholder value (used to compare `endFile_content` with the
per-occurrence rendering). -/
def sideFileEntry (itm : String) : String :=
  "'" ++ endFileEsc itm ++ "':\n    '',\n    "

/-- Substring-occurrence counter (Python `s.count(pat)` for non-empty
`pat`), fuelled like `replAux`. -/
def countAux (p : List Char) : Nat → List Char → Nat
  | _, [] => 0
  | 0, _ => 0
  | Nat.succ n, c :: t =>
    if p.isPrefixOf (c :: t) then 1 + countAux p n ((c :: t).drop p.length)
    else countAux p n t

/-- Python `s.count(pat)` for a non-empty pattern. -/
def pyCountSub (s pat : String) : Nat := countAux pat.toList s.toList.length s.toList

/-!
## endFeature (src/vgenerator.py lines 437-517)
-/

/-- Framework-supplied configuration and feature context read by
`endFeature`: fields of `self.genOpts`, `self.genOpts.conventions` and the
per-feature attributes set by the framework base class.
`conventions.writeFeature` is an arbitrary framework predicate. -/
structure EndFeatureEnv where
  emit : Bool
  featureName : String
  featureExtraProtect : Option String
  api_prefix : String
  writeFeature : String → Option String → String → Bool
  protectProtoComment : Bool
  protectFeature : Bool
  genFuncPointers : Bool
  protectProto : Option String
  protectProtoStr : Option String
  protectExtensionProto : Option String
  protectExtensionProtoStr : Option String
  filename : String

/-- Python `print`-rendering of a possibly absent string (the framework
`write` helper prints `None` for a `None` argument). -/
def pyShowOpt (s : Option String) : String := s.getD "None"

/-- `VOutputGenerator._endProtectComment` (src/vgenerator.py
lines 437-447); the `RuntimeError` for a missing argument is embedded as
`Except.error`. -/
def endProtectComment (protectProtoComment : Bool) (protect_str : Option String)
    (protect_directive : Option String) : Except String String :=
  if protect_directive = none ∨ protect_str = none then
    Except.error "Should not call in here without something to protect"
  else if !protectProtoComment then Except.ok ""
  else if pyContains (pyShowOpt protect_directive) "ifdef" then
    Except.ok (" /* " ++ pyShowOpt protect_str ++ " */")
  else
    Except.ok (" /* !" ++ pyShowOpt protect_str ++ " */")

/-- Text written for one `write(a, b)` call of the framework: arguments
joined by one space, newline appended. -/
def writeLn2 (a b : String) : String := a ++ " " ++ b ++ "\n"

/-- `VOutputGenerator.endFeature` (src/vgenerator.py lines 451-517),
returning the text written to the output stream.  The framework
`OutputGenerator.endFeature` call at the end performs no writing.  The
in-method reassignments of `self.featureName` (lines 461 and 475) are kept
as the local values `fn1` and `fn2`. -/
def endFeature (env : EndFeatureEnv) (st : GenState) : Except String String := do
  if env.emit then
    if st.feature_not_empty then
      let is_core := pyTruthy env.featureName &&
        pyStartsWith env.featureName (env.api_prefix ++ "VERSION_")
      let fn1 := pyLower (removeVk env.featureName)
      if env.writeFeature fn1 env.featureExtraProtect env.filename then
        let mut out := "\n"
        if env.protectFeature then
          out := out ++ writeLn2 "#ifndef" fn1
        if h : env.featureExtraProtect.isSome then
          out := out ++ writeLn2 "#ifdef" (env.featureExtraProtect.get h)
        out := out ++ "\n"
        let fn2 := removeVk fn1
        for sec in TYPE_SECTIONS do
          let contents := sectionsGet st.sections sec
          if !contents.isEmpty then
            out := out ++ pyJoin "\n" contents ++ "\n"
        if env.genFuncPointers && !(sectionsGet st.sections "commandPointer").isEmpty then
          out := out ++ pyJoin "\n" (sectionsGet st.sections "commandPointer") ++ "\n"
          out := out ++ "\n"
        if !(sectionsGet st.sections "command").isEmpty then
          if pyTruthyOpt env.protectProto then
            out := out ++ writeLn2 (pyShowOpt env.protectProto) (pyShowOpt env.protectProtoStr)
          if pyTruthyOpt env.protectExtensionProto && !is_core then
            out := out ++ writeLn2 (pyShowOpt env.protectExtensionProto)
              (pyShowOpt env.protectExtensionProtoStr)
          out := out ++ pyJoin "\n" (sectionsGet st.sections "command")
          if pyTruthyOpt env.protectExtensionProto && !is_core then
            let c ← endProtectComment env.protectProtoComment env.protectExtensionProtoStr
              env.protectExtensionProto
            out := out ++ "#endif" ++ c ++ "\n"
          if pyTruthyOpt env.protectProto then
            let c ← endProtectComment env.protectProtoComment env.protectProtoStr
              env.protectProto
            out := out ++ "#endif" ++ c ++ "\n"
          else
            out := out ++ "\n"
        if h : env.featureExtraProtect.isSome then
          let c ← endProtectComment env.protectProtoComment
            (some (env.featureExtraProtect.get h)) (some "#ifdef")
          out := out ++ "#endif" ++ c ++ "\n"
        if env.protectFeature then
          let c ← endProtectComment env.protectProtoComment (some fn2) (some "#ifdef")
          out := out ++ "#endif" ++ c ++ "\n"
        return out
      else
        return ""
    else
      return ""
  else
    return ""

/-!
## Mutability inference in makeVParamDecl (src/vgenerator.py lines 1315-1334)

`makeVParamDecl` assembles `paramdecl` during its element walk and then, in
function-parameter context only, decides whether to prepend `mut`.  The
decision tail is embedded here as a function of the assembled values.
-/

/-- The `(?:&|\[\d*\])*` part of the regex at src/vgenerator.py line 1320:
greedily consume leading reference sigils and `[digits]` dimensions.
Fuelled for structural recursion. -/
def stripAmpBrackets : Nat → List Char → List Char
  | 0, l => l
  | _, [] => []
  | Nat.succ n, c :: t =>
    if c = '&' then stripAmpBrackets n t
    else if c = '[' then
      match t.dropWhile isDigit09 with
      | ']' :: rest2 => stripAmpBrackets n rest2
      | _ => c :: t
    else c :: t

/-- Group 1 of `re.match(r'(?:&|\[\d*\])*(?:C\.Vk)?(.*)', type)`
(src/vgenerator.py line 1320): strip the sigil/dimension run, an optional
literal `C.Vk`, and stop at a newline (`.` does not match `\n`). -/
def mutRegexGroup1 (s : String) : String :=
  let l := stripAmpBrackets s.toList.length s.toList
  let l := if "C.Vk".toList.isPrefixOf l then l.drop 4 else l
  String.mk (l.takeWhile (fun c => c ≠ '\n'))

/-- The `mut`-marking tail of `makeVParamDecl` (src/vgenerator.py
lines 1315-1329): in function-parameter context (`do_struct_members`
false), a non-`const` parameter is prefixed with `mut` unless its stripped
base type is a known enum type, a literal base type, or an alias resolving
to a base type. -/
def makeVParamDecl_setMut (is_const do_struct_members : Bool) (v_type paramdecl : String)
    (enum_types : List String) (alias_map : List (String × String)) : String :=
  if !is_const && !do_struct_members then
    let type_to_check := mutRegexGroup1 v_type
    if !(enum_types.contains type_to_check)
        && !(BASE_TYPES_ARR.contains type_to_check)
        && (!(dictHasKey alias_map type_to_check)
            || !(BASE_TYPES_ARR.contains ((dictGet alias_map type_to_check).getD ""))) then
      "mut" ++ paramdecl
    else paramdecl
  else paramdecl

/-- Whether the `mut`-marking tail marks the parameter mutable (the string
step above prepends `mut` exactly when this is true). -/
def makeVParamDecl_isMut (is_const do_struct_members : Bool) (v_type : String)
    (enum_types : List String) (alias_map : List (String × String)) : Bool :=
  !is_const && !do_struct_members &&
    (let type_to_check := mutRegexGroup1 v_type
     !(enum_types.contains type_to_check)
        && !(BASE_TYPES_ARR.contains type_to_check)
        && (!(dictHasKey alias_map type_to_check)
            || !(BASE_TYPES_ARR.contains ((dictGet alias_map type_to_check).getD ""))))

/-!
## Enum-group name surgery (src/vgenerator.py lines 236, 1095-1154, 1540-1549)
-/

/-- `STRUCTURE_TYPES_NUMBER_WITH_UNDERSCORE_REGEX.sub(r'\g<num_after_underscore>', s)`
with pattern `(?<=[A-Z])_(?P<num_after_underscore>[0-9])` (src/vgenerator.py
lines 236 and 1604): each match is a two-character `_d` sequence preceded by
an upper-case letter; look-behind inspects the original text, matches are
non-overlapping left to right. -/
def numUnderscoreGo : Option Char → List Char → List Char
  | _, [] => []
  | prev, '_' :: d :: rest2 =>
    if (match prev with | some p => isUpperAZ p | none => false) && isDigit09 d then
      d :: numUnderscoreGo (some d) rest2
    else '_' :: numUnderscoreGo (some '_') (d :: rest2)
  | _, ['_'] => ['_']
  | _, c :: rest => c :: numUnderscoreGo (some c) rest

/-- The `_2`-collapsing substitution used on enum member names. -/
def numUnderscoreSub (s : String) : String := String.mk (numUnderscoreGo none s.toList)

/-- Python `s[0:-n]` (empty for `n = 0`, since `-0` is `0`). -/
def pySliceToNeg (s : String) (n : Nat) : String :=
  if n = 0 then "" else pyTake s (s.toList.length - n)

/-- First loop of `removeStructEnumNameFromMember` (src/vgenerator.py
lines 1110-1116): try the snake-cased group name, then drop one word from
its end per iteration, and strip the first matching candidate from the
start of the member name.  The fuel equals the word count, as in the
Python `range(len(words))` loop. -/
def stripStartAux (memberName : String) : Nat → List String → String
  | 0, _ => memberName
  | _, [] => memberName
  | Nat.succ n, ws =>
    let cand := pyJoin "_" ws
    if pyStartsWith memberName cand then pyDrop memberName cand.toList.length
    else stripStartAux memberName n ws.dropLast

/-- Replace the first `bits` word by `bit` (src/vgenerator.py
lines 1129-1131). -/
def setFirstBitsToBit (ws : List String) : List String :=
  match ws.findIdx? (fun w => w = "bits") with
  | some i => ws.set i "bit"
  | none => ws

/-- Second loop of `removeStructEnumNameFromMember` (src/vgenerator.py
lines 1132-1142): per iteration, patch `bits` at the running index if still
in range, strip the joined candidate (or the candidate plus `_khr`) from
the end of the member name, else drop the first word.  The loop counter `i`
keeps growing while the list shrinks, exactly as in the Python source. -/
def stripEndAux (newName : String) : Nat → Nat → List String → String
  | 0, _, _ => newName
  | Nat.succ fuel, i, cur =>
    let cur := if h : i < cur.length then
        (if cur.get ⟨i, h⟩ = "bits" then cur.set i "bit" else cur)
      else cur
    let postf := pyJoin "_" cur
    if pyEndsWith newName postf then pySliceToNeg newName postf.toList.length
    else if pyEndsWith newName (postf ++ "_khr") then
      pySliceToNeg newName (postf ++ "_khr").toList.length
    else stripEndAux newName fuel (i + 1) (cur.drop 1)

/-- `VOutputGenerator.removeStructEnumNameFromMember` (src/vgenerator.py
lines 1095-1154). -/
def removeStructEnumNameFromMember (structEnumName memberName : String) : String :=
  let snake := v_camel_to_snake_case structEnumName
  let words := pySplitChar snake '_'
  let newName := stripStartAux memberName words.length words
  let newName :=
    if newName ≠ "" ∧ pyStartsWith newName "_" then pyDrop newName 1 else newName
  let words_end := setFirstBitsToBit words
  let newName := stripEndAux newName words_end.length 0 words_end
  let newName :=
    if newName ≠ "" ∧ pyEndsWith newName "_" then pySliceToNeg newName 1 else newName
  let newName :=
    match newName.toList with
    | c :: _ => if isDigit09 c then "_" ++ newName else newName
    | [] => newName
  if newName ≠ "" then newName else memberName

/-- One scan step of `re.sub(r'([0-9]+|[a-z_])([A-Z0-9])', r'\1_\2', s)`
(src/vgenerator.py line 1542).  Group 1 is a greedy digit run (backtracking
one digit into group 2 when nothing else follows) or a single lower-case
letter or underscore; group 2 is one upper-case letter or digit; the
replacement inserts `_` between the two groups.  Fuelled: every step
consumes at least one character. -/
def expandGo : Nat → List Char → List Char
  | 0, l => l
  | _, [] => []
  | Nat.succ n, c :: t =>
    if isDigit09 c then
      let run := (c :: t).takeWhile isDigit09
      let rest := (c :: t).dropWhile isDigit09
      match rest with
      | u :: rest2 =>
        if isUpperAZ u then run ++ '_' :: u :: expandGo n rest2
        else if run.length ≥ 2 then
          match run.reverse with
          | last :: frontRev => frontRev.reverse ++ '_' :: last :: expandGo n rest
          | [] => expandGo n rest
        else c :: expandGo n t
      | [] =>
        if run.length ≥ 2 then
          match run.reverse with
          | last :: frontRev => frontRev.reverse ++ ['_', last]
          | [] => []
        else run
    else if isLowerAZ c || c = '_' then
      match t with
      | u :: t2 =>
        if isUpperAZ u || isDigit09 u then c :: '_' :: u :: expandGo n t2
        else c :: expandGo n t
      | [] => [c]
    else c :: expandGo n t

/-- `expandName` derivation (src/vgenerator.py line 1542): the underscore
insertion followed by `.upper()`. -/
def expandNameOf (s : String) : String := pyUpper (String.mk (expandGo s.toList.length s.toList))

/-- `re.search(r'[A-Z][A-Z]+$', s)` (src/vgenerator.py line 1545): the
trailing upper-case run when it has at least two letters. -/
def trailingUpperRun (s : String) : Option String :=
  let run := (s.toList.reverse.takeWhile isUpperAZ).reverse
  if run.length ≥ 2 then some (String.mk run) else none

/-- Python `s.rsplit(p, 1)[0]` for non-empty `p`: the part before the last
occurrence of `p` (the whole string when `p` does not occur). -/
def rsplitBefore (s p : String) : String :=
  let l := s.toList
  let pl := p.toList
  let idxs := (List.range (l.length + 1)).filter (fun i => pl.isPrefixOf (l.drop i))
  match idxs.getLast? with
  | some i => String.mk (l.take i)
  | none => s

/-!
## Enum and bitmask group translation (src/vgenerator.py lines 1338-1685)

The registry data reaching these methods through the external framework is
embedded as explicit member records: `enumToValue(elem, ...)` becomes the
`numVal`/`strVal` fields, `isEnumRequired(elem)` the `required` field, and
attribute reads the remaining fields.  `checkDuplicateEnums` (framework)
returns the member list with duplicates removed; the embedded member list
is that de-duplicated list.
-/

/-- One `<enum>` member of a group, as the external framework presents it. -/
structure EnumMember where
  name : String
  numVal : Option Int
  strVal : String
  required : Bool
  protect : Option String
  extendsAttr : Option String
  deprecated : Option String
  deriving Repr, DecidableEq

/-- `OutputGenerator.deprecationComment` (src/vgenerator.py
lines 2030-2063); the unknown-reason branch logs and exits, embedded as
`Except.error`. -/
def deprecationComment (deprecated : Option String) (name : String) (indent : Nat) :
    Except String String :=
  match deprecated with
  | none => Except.ok ""
  | some reason =>
    let padding := String.mk (List.replicate indent ' ')
    if reason = "aliased" then Except.ok (padding ++ "// " ++ name ++ " is a deprecated alias\n")
    else if reason = "ignored" then
      Except.ok (padding ++ "// " ++ name ++ " is deprecated and should not be used\n")
    else if reason = "true" then
      Except.ok (padding ++ "// " ++ name ++ " is deprecated, but no reason was given in the API XML\n")
    else Except.error ("unknown deprecation attribute value")

/-- Loop accumulator of `buildEnumVDecl_Enum`. -/
structure EnumLoopAcc where
  body : List String
  aliasText : List String
  minName : Option String
  maxName : Option String
  minValue : Option Int
  maxValue : Option Int
  st : GenState
  deriving Repr

/-- The placeholder token embedded in the first emitted line of an enum
declaration (src/vgenerator.py line 1559). -/
def enumPlaceholder : String := "ThisIsAplaceholderTO_REPLACE_LATERwithEnumType"

/-- Per-member step of the `buildEnumVDecl_Enum` loop (src/vgenerator.py
lines 1591-1652).  A required member with a `protect` attribute hits the
`continue` at line 1618 before anything is emitted, before the range check
and before min/max tracking. -/
def enumMemberStep (groupName : String) (keep_vk_member_name : Bool) (isEnum : Bool)
    (acc : EnumLoopAcc) (m : EnumMember) : Except String EnumLoopAcc := do
  let name := numUnderscoreSub m.name
  let name := if !keep_vk_member_name then pyLower (removeVk name) else name
  let name := removeStructEnumNameFromMember groupName name
  if m.required ∧ m.protect.isSome then
    return acc
  else
    let acc ← do
      if m.required then
        let dep ← deprecationComment m.deprecated m.name 2
        let decl := "" ++ dep
        let decl := decl ++
          (if pyTake m.strVal 2 = "0x" then "    " ++ name ++ " = int(" ++ m.strVal ++ ")"
           else "    " ++ name ++ " = " ++ m.strVal)
        let st := if groupName = "StructureType" then
            { acc.st with structure_types := acc.st.structure_types ++ [name] }
          else acc.st
        if m.numVal.isSome then
          pure { acc with body := acc.body ++ [decl], st := st }
        else
          pure { acc with aliasText := acc.aliasText ++ [decl], st := st }
      else
        pure acc
    match m.numVal with
    | some v =>
      if v > (2 ^ 31 - 1 : Int) ∨ v < -(2 ^ 31 : Int) then
        Except.error "Allowable range for C enum types is [-2147483648, 2147483647]"
      else
        if isEnum ∧ m.extendsAttr = none then
          if acc.minName = none then
            return { acc with minName := some name, maxName := some name,
                              minValue := some v, maxValue := some v }
          else if acc.minValue = none ∨ v < acc.minValue.getD 0 then
            return { acc with minName := some name, minValue := some v }
          else if acc.maxValue = none ∨ v > acc.maxValue.getD 0 then
            return { acc with maxName := some name, maxValue := some v }
          else
            return acc
        else
          return acc
    | none => return acc

/-- The sentinel block of `buildEnumVDecl_Enum` (src/vgenerator.py
lines 1660-1670): when generating code, append `    max_enum<suffix> = max_int`
unless some already collected line contains one of the two literal
spellings `int(0x7FFFFFFF)` / `int(0xFFFFFFFF)`. -/
def enumSentinelStep (codeGenerator generate_max_enum_in_docs : Bool) (expandSuf : String)
    (body : List String) : List String :=
  if codeGenerator || generate_max_enum_in_docs then
    if (body.filter (fun x => pyContains x "int(0x7FFFFFFF)" || pyContains x "int(0xFFFFFFFF)")).length ≤ 0 then
      body ++ ["    max_enum" ++ pyLower expandSuf ++ " = max_int"]
    else body
  else body

/-- `VOutputGenerator.buildEnumVDecl_Enum` (src/vgenerator.py
lines 1531-1685).  Returns the section name, the declaration text and the
updated state.  `genOpts.codeGenerator` and
`conventions.generate_max_enum_in_docs` are passed in as booleans. -/
def buildEnumVDecl_Enum (expand : Bool) (groupTypeAttr : Option String) (groupName : String)
    (members : List EnumMember) (keep_vk_member_name : Bool)
    (codeGenerator generate_max_enum_in_docs : Bool) (st : GenState) :
    Except String (String × String × GenState) := do
  let sec := if groupTypeAttr = some "bitmask" then "bitmask" else "group"
  let expandName := expandNameOf groupName
  let (expandPre, expandSuf) :=
    match trailingUpperRun groupName with
    | some run => (rsplitBefore expandName ("_" ++ run), "_" ++ run)
    | none => (expandName, "")
  let isEnum := !(pyContains expandPre "FLAG_BITS")
  let groupNameOrig := groupName
  let groupName := removeVk groupName
  let body0 := ["pub enum " ++ groupNameOrig ++ " " ++ enumPlaceholder ++ "\x7b"]
  let st := if !(st.structure_types.contains groupNameOrig) then
      { st with enum_types := st.enum_types ++ [groupNameOrig] }
    else st
  let acc0 : EnumLoopAcc :=
    { body := body0, aliasText := [], minName := none, maxName := none,
      minValue := none, maxValue := none, st := st }
  let acc ← members.foldlM (enumMemberStep groupName keep_vk_member_name isEnum) acc0
  let body := acc.body
  let body := if isEnum ∧ expand then
      body ++ ["    " ++ expandPre ++ "_BEGIN_RANGE" ++ expandSuf ++ " = " ++ pyShowOpt acc.minName ++ ",",
               "    " ++ expandPre ++ "_END_RANGE" ++ expandSuf ++ " = " ++ pyShowOpt acc.maxName ++ ",",
               "    " ++ expandPre ++ "_RANGE_SIZE" ++ expandSuf ++ " = (" ++ pyShowOpt acc.maxName ++ " - " ++ pyShowOpt acc.minName ++ " + 1),"]
    else body
  let body := enumSentinelStep codeGenerator generate_max_enum_in_docs expandSuf body
  let body := body ++ ["\x7d"]
  let ret := pyJoin "\n" body
  let ret :=
    if acc.minValue.isSome ∧ acc.minValue.getD 0 < 0 then
      pyReplace ret enumPlaceholder ""
    else
      pyReplace (pyReplace ret enumPlaceholder "as u32 ") "int(" "u32("
  return (sec, ret, acc.st)

/-- The registry's literal enum table used by the alias chase of
`buildEnumVDecl_BitmaskOrDefine` (src/vgenerator.py lines 1491-1496):
`registry.tree.find("enums/enum[@name=...]")` followed by `enumToValue`,
embedded as a lookup from member name to the `(numVal, strVal)` pair. -/
def RegistryEnums := List (String × (Option Int × String))

/-- The alias chase `while numVal is None:` (src/vgenerator.py
lines 1491-1496).  A missing alias makes the Python loop log an error and
repeat forever; both that and exhausted fuel are embedded as
`Except.error`, since generation cannot proceed either way. -/
def chaseAlias (registry : RegistryEnums) : Nat → Option Int → String →
    Except String (Int × String)
  | _, some v, strVal => Except.ok (v, strVal)
  | 0, none, _ => Except.error "alias chase exhausted"
  | Nat.succ n, none, strVal =>
    match (registry.find? (fun p => p.1 = strVal)).map (fun p => p.2) with
    | some (nv, sv) => chaseAlias registry n nv sv
    | none => Except.error "No such alias"

/-- Per-member step of `buildEnumVDecl_BitmaskOrDefine` (src/vgenerator.py
lines 1429-1523).  The accumulator is the pair `(body, aliasText)`. -/
def bitmaskMemberStep (flagTypeName : String) (usedefine misracppstyle : Bool)
    (registry : RegistryEnums) (acc : String × String) (m : EnumMember) :
    Except String (String × String) := do
  let strVal := m.strVal
  let name := m.name
  let v_name := name
  let v_type :=
    if pyContains strVal "ULL" then "u64"
    else if pyContains strVal "U" then "u32"
    else strVal
  let couldnt_convert_strVal := !(pyContains strVal "ULL" || pyContains strVal "U")
  let prfx := if pyContains strVal "~" then "~" else ""
  let v_value :=
    if pyStartsWith (pyLower strVal) "vk" then strVal
    else pyReplace (pyReplace (pyReplace (pyReplace (pyReplace (pyReplace strVal "~" "") "U" "") "L" "") "F" "") "(" "") ")" ""
  if m.numVal.isSome ∧ ((m.numVal.getD 0) > (2 ^ 64 - 1 : Int) ∨ (m.numVal.getD 0) < 0) then
    Except.error "Allowable range for flag types in C is [0, 18446744073709551615]"
  else
    if m.required then
      let dep ← deprecationComment m.deprecated m.name 0
      let body := acc.1 ++ dep
      if usedefine then
        let decl := "#define " ++ name ++ " " ++ strVal ++ "\n"
        if m.numVal.isSome then return (body ++ decl, acc.2)
        else return (body, acc.2 ++ decl)
      else if misracppstyle then
        let decl := "static constexpr " ++ flagTypeName ++ " " ++ name ++ " \x7b" ++ strVal ++ "\x7d;\n"
        if m.numVal.isSome then return (body ++ decl, acc.2)
        else return (body, acc.2 ++ decl)
      else
        let (_numv, _strv) ← chaseAlias registry (registry.length + 1) m.numVal strVal
        let v_name := pyLower v_name
        let v_value := removeVk v_value
        let v_name := removeVk v_name
        let v_type := removeVk v_type
        let v_value := pyLower v_value
        let decl :=
          if couldnt_convert_strVal then
            "pub const " ++ v_name ++ " = " ++ pyLower (prfx ++ v_type) ++ "\n"
          else if pyStartsWith (pyLower v_value) "vk" then
            "pub const " ++ v_name ++ " = " ++ v_value ++ "\n"
          else
            "pub const " ++ v_name ++ " = " ++ (prfx ++ v_type ++ "(" ++ v_value ++ ")") ++ "\n"
        return (body ++ decl, acc.2)
    else
      return acc

/-- `VOutputGenerator.buildEnumVDecl_BitmaskOrDefine` (src/vgenerator.py
lines 1391-1528). -/
def buildEnumVDecl_BitmaskOrDefine (groupElemName : String) (bitwidth : Int)
    (usedefine misracppstyle : Bool) (members : List EnumMember)
    (registry : RegistryEnums) (st : GenState) :
    Except String (String × String × GenState) := do
  let flagTypeName := removeVk groupElemName
  let body := "// Flag bits for " ++ flagTypeName ++ "\n"
  let (body, st) :=
    if bitwidth = 64 then
      (body ++ "pub type " ++ flagTypeName ++ " = u64\n",
       { st with alias_to_base_type_map := dictSet st.alias_to_base_type_map flagTypeName "u64" })
    else
      (body ++ "pub type " ++ flagTypeName ++ " = u32\n",
       { st with alias_to_base_type_map := dictSet st.alias_to_base_type_map flagTypeName "u32" })
  let acc ← members.foldlM (bitmaskMemberStep flagTypeName usedefine misracppstyle registry)
    (body, "")
  return ("bitmask", acc.1 ++ acc.2, st)

/-- The group-level registry data consumed by `buildEnumVDecl`
(src/vgenerator.py lines 1338-1388): the element's `name`, `type` and
`bitwidth` attributes and its (de-duplicated) member list.  A present but
non-integer `bitwidth` attribute is `some none` (the Python `int(...)`
raises `ValueError` there, which is logged and exits). -/
structure GroupInfo where
  elemName : String
  typeAttr : Option String
  bitwidthAttr : Option (Option Int)
  members : List EnumMember
  deriving Repr

/-- `VOutputGenerator.buildEnumVDecl` (src/vgenerator.py lines 1338-1388):
bit-width resolution and strategy dispatch. -/
def buildEnumVDecl (expand : Bool) (g : GroupInfo) (groupName : String)
    (keep_vk_member_name : Bool) (constFlagBits misracstyle misracppstyle : Bool)
    (codeGenerator generate_max_enum_in_docs : Bool) (registry : RegistryEnums)
    (st : GenState) : Except String (String × String × GenState) := do
  let bitwidth : Int := if constFlagBits ∧ g.typeAttr = some "bitmask" then 64 else 32
  let bitwidth ← match g.bitwidthAttr with
    | none => pure bitwidth
    | some none => Except.error "Invalid value for bitwidth attribute - must be an integer value"
    | some (some b) => pure b
  let usebitmask := g.typeAttr = some "bitmask" ∧ (bitwidth > 32 ∨ misracppstyle)
  let usedefine := g.typeAttr = some "bitmask" ∧ misracstyle
  if usedefine ∨ usebitmask then
    if bitwidth > 64 then
      Except.error "Invalid value for bitwidth attribute for bitmask type - must be less than or equal to 64"
    else
      buildEnumVDecl_BitmaskOrDefine g.elemName bitwidth usedefine misracppstyle g.members
        registry st
  else
    if bitwidth > 32 then
      Except.error "Invalid value for bitwidth attribute for enum type - must be less than or equal to 32"
    else
      buildEnumVDecl_Enum expand g.typeAttr groupName g.members keep_vk_member_name
        codeGenerator generate_max_enum_in_docs st

/-- `Except` result is an error. -/
def exceptIsError {e a : Type} (x : Except e a) : Bool :=
  match x with
  | Except.error _ => true
  | Except.ok _ => false

/-- The sequential substring-triggered rewrites of `genType`
(src/vgenerator.py lines 1956-2020): each `if pattern in c_body:` overwrites
`body` with a hand-written V snippet; later matches win. -/
def VERSION_REWRITES : List (String × String) := [
  ("#define VK_MAKE_VERSION(major, minor, patch)",
   "\npub fn make_version(major u32, minor u32, patch u32) u32 \x7b\n  return (major << 22) | (minor << 12) | patch\n\x7d"),
  ("#define VK_VERSION_MAJOR(version)",
   "\npub fn version_major(version u32) u32 \x7b\n  return version >> 22\n\x7d"),
  ("#define VK_VERSION_MINOR(version)",
   "\npub fn version_minor(version u32) u32 \x7b\n  return (version >> 12) & 0xFFF\n\x7d"),
  ("#define VK_VERSION_PATCH(version)",
   "\npub fn version_patch(version u32) u32 \x7b\n  return version & 0xFFF\n\x7d\n"),
  ("MAKE_API_VERSION(variant, major, minor, patch)",
   "\npub fn make_api_version(variant u32, major u32, minor u32, patch u32) u32 \x7b\n  return (variant << 29) | (major << 22) | (minor << 12) | patch\n\x7d"),
  ("API_VERSION_VARIANT(version)",
   "pub fn version_variant(version u32) u32 \x7b\n  return version >> 29\n\x7d"),
  ("API_VERSION_MAJOR(version)",
   "\npub fn api_version_major(version u32) u32 \x7b\n  return (version >> 22) & u32(0x7F)\n\x7d"),
  ("API_VERSION_MINOR(version)",
   "\npub fn api_version_minor(version u32) u32 \x7b\n  return (version >> 12) & u32(0x3FF)\n\x7d"),
  ("API_VERSION_PATCH(version)",
   "\npub fn api_version_patch(version u32) u32 \x7b\n  return version & u32(0xFFF)\n\x7d"),
  ("VK_MAKE_VIDEO_STD_VERSION(major, minor, patch)",
   "\npub fn make_video_std_version(major u32, minor u32, patch u32) u32 \x7b\n  return (major << 22) | (minor << 12) | patch\n\x7d"),
  ("#define VK_STD_VULKAN_VIDEO_CODEC_H264_DECODE_API_VERSION_1_0_0",
   "pub const std_vulkan_video_codec_h264_decode_api_version_1_0_0 = make_video_std_version(1, 0, 0)"),
  ("#define VK_STD_VULKAN_VIDEO_CODEC_H264_ENCODE_API_VERSION_1_0_0",
   "pub const std_vulkan_video_codec_h264_encode_api_version_1_0_0 = make_video_std_version(1, 0, 0)"),
  ("#define VK_STD_VULKAN_VIDEO_CODEC_H265_DECODE_API_VERSION_1_0_0",
   "pub const std_vulkan_video_codec_h265_decode_api_version_1_0_0 = make_video_std_version(1, 0, 0)"),
  ("#define VK_STD_VULKAN_VIDEO_CODEC_H265_ENCODE_API_VERSION_1_0_0",
   "pub const std_vulkan_video_codec_h265_encode_api_version_1_0_0 = make_video_std_version(1, 0, 0)"),
  ("#define VK_STD_VULKAN_VIDEO_CODEC_AV1_DECODE_API_VERSION_1_0_0",
   "pub const std_vulkan_video_codec_av1_decode_api_version_1_0_0 = make_video_std_version(1, 0, 0)"),
  ("#define VK_STD_VULKAN_VIDEO_CODEC_AV1_ENCODE_API_VERSION_1_0_0",
   "pub const std_vulkan_video_codec_av1_encode_api_version_1_0_0 = make_video_std_version(1, 0, 0)"),
  ("#define VK_STD_VULKAN_VIDEO_CODEC_VP9_DECODE_API_VERSION_1_0_0",
   "pub const std_vulkan_video_codec_vp9_decode_api_version_1_0_0 = make_video_std_version(1, 0, 0)")]

/-!
## Class-attribute sharing between generator instances

The five accumulator tables (`ALIAS_TO_BASE_TYPE_MAP`, `C_STRUCT_ARR`,
`ENUM_TYPES`, `STRUCTURE_TYPES`, `REPLACEMENT_EXACT_TEXT_ARR`) are defined
in the class body of `VOutputGenerator` (src/vgenerator.py lines 211, 235,
241, 325, 358), while `__init__` (lines 360-365) assigns only `sections`,
`feature_not_empty` and `may_alias` on `self`.  Every mutation of the
tables in the source is an in-place operation (`append`, subscript
assignment) through `self.<TABLE>`; CPython attribute lookup finds no such
key in the instance dictionary, falls back to the class attribute, and the
in-place operation mutates that one shared class-level object.  The model
below embeds that resolution: tables live in a class record, instances hold
only the attributes `__init__` creates.
-/

/-- The class-level tables of `VOutputGenerator`. -/
structure PyClassTables where
  alias_to_base_type_map : List (String × String)
  c_struct_arr : List String
  enum_types : List String
  structure_types : List String
  replacement_exact_text_arr : List String
  deriving Repr, DecidableEq

/-- The instance attributes created by `__init__` (src/vgenerator.py
lines 360-365). -/
structure PyInstance where
  sections : List (String × List String)
  feature_not_empty : Bool
  deriving Repr, DecidableEq

/-- One Python process holding the `VOutputGenerator` class object and any
number of its instances. -/
structure PyWorld where
  cls : PyClassTables
  insts : List PyInstance
  deriving Repr, DecidableEq

/-- Freshly loaded class: the literal class-body initialisers. -/
def initPyWorld : PyWorld :=
  { cls := { alias_to_base_type_map := [], c_struct_arr := [], enum_types := [],
             structure_types := [], replacement_exact_text_arr := [] }
    insts := [] }

/-- `VOutputGenerator(...)`: `__init__` appends a new instance whose
instance dictionary holds only the per-instance attributes. -/
def pyNewInstance (w : PyWorld) : PyWorld :=
  { w with insts := w.insts ++ [{ sections := initSections, feature_not_empty := false }] }

/-- `self.ENUM_TYPES.append(g)` executed through instance `i`
(src/vgenerator.py line 1563): the attribute resolves to the class table
for every `i`, and `append` mutates it in place. -/
def appendEnumTypeVia (w : PyWorld) (_i : Nat) (g : String) : PyWorld :=
  { w with cls := { w.cls with enum_types := w.cls.enum_types ++ [g] } }

/-- `self.ALIAS_TO_BASE_TYPE_MAP[name] = alias` through instance `i`
(e.g. src/vgenerator.py lines 1047, 1406, 1409): same class-attribute
resolution. -/
def setAliasBaseVia (w : PyWorld) (_i : Nat) (name aliasArg : String) : PyWorld :=
  { w with cls := { w.cls with
      alias_to_base_type_map := dictSet w.cls.alias_to_base_type_map name aliasArg } }

/-- Reading `self.ENUM_TYPES` through instance `i`. -/
def observeEnumTypesVia (w : PyWorld) (_i : Nat) : List String := w.cls.enum_types

/-- Reading `self.ALIAS_TO_BASE_TYPE_MAP` through instance `i`. -/
def observeAliasMapVia (w : PyWorld) (_i : Nat) : List (String × String) :=
  w.cls.alias_to_base_type_map

/-- Reading `self.sections` through instance `i` (an instance attribute;
out-of-range indices yield the empty table for totality, unreachable in the
modelled runs). -/
def observeSectionsVia (w : PyWorld) (i : Nat) : List (String × List String) :=
  match w.insts.get? i with
  | some inst => inst.sections
  | none => []

/-!
## genType and its two passes (src/vgenerator.py lines 544-790, 1908-2023)

The registry element reaching `genType` is embedded as `TypeElem`; its
child elements (`etree` children with `text` and `tail`) as `XmlChild`.
The struct/union categories are delegated by both passes to `genStruct`,
which is outside the scope of the claims settled here; that branch is
embedded as an explicit `Except.error` marker so nothing can silently rely
on it.
-/

/-- One child element of a registry `<type>` element. -/
structure XmlChild where
  tag : String
  text : Option String
  tail : Option String
  deriving Repr, DecidableEq

/-- A registry `<type>` element as consumed by `genType`. -/
structure TypeElem where
  category : Option String
  deprecated : Option String
  nameAttr : Option String
  text : Option String
  children : List XmlChild
  deriving Repr, DecidableEq

/-- `VOutputGenerator.genCType` (src/vgenerator.py lines 544-592): the
description-facing reconstruction pass.  Returns `none` where the Python
method falls through without a `return` (empty body, or the struct path
whose output goes through `genStruct`); the struct path itself is the
unmodelled-branch marker. -/
def genCType (te : TypeElem) (name : String) (aliasArg : Option String)
    (apientry : String) (misracppstyle : Bool) :
    Except String (Option (Option String × String)) := do
  let category := te.category
  let sec := if category = some "funcpointer" then some "struct" else category
  if category = some "struct" ∨ category = some "union" then
    Except.error "genStruct branch (outside the modelled scope)"
  else
    let dep ← deprecationComment te.deprecated (pyShowOpt te.nameAttr) 0
    let body := dep
    let body :=
      if pyTruthyOpt aliasArg then
        body ++ "typedef " ++ aliasArg.getD "" ++ " " ++ name ++ ";\n"
      else Id.run do
        let mut b := body ++ noneStr te.text
        for el in te.children do
          if el.tag = "apientry" then
            b := b ++ apientry ++ noneStr el.tail
          else
            b := b ++ noneStr el.text ++ noneStr el.tail
        pure b
    let body :=
      if category = some "define" ∧ misracppstyle then
        pyReplace body "(uint32_t)" "static_cast<uint32_t>"
      else body
    if pyTruthy body then
      let body := if pyContains (pySliceToNeg body 1) "\n" then body ++ "\n" else body
      return some (sec, body)
    else
      return none

/-- `VOutputGenerator.v_translate_c_name_to_basetype` (src/vgenerator.py
lines 1042-1061). -/
def v_translate_c_name_to_basetype (st : GenState) (name aliasArg : String) :
    String × String × GenState :=
  let aliasArg := removeVk aliasArg
  let name := removeVk name
  let ptr_count := pyCountChar aliasArg '&'
  if BASE_TYPES_ARR.contains aliasArg then
    (name, aliasArg,
     { st with alias_to_base_type_map := dictSet st.alias_to_base_type_map name aliasArg })
  else if st.c_struct_arr.contains aliasArg then
    (name, "voidptr", st)
  else if st.c_struct_arr.contains (removeVk (pyLstripAmp aliasArg)) then
    let aliasArg := "C.Vk" ++ (String.mk (List.replicate ptr_count '&') ++ aliasArg)
    (name, aliasArg,
     { st with alias_to_base_type_map := dictSet st.alias_to_base_type_map name aliasArg })
  else
    match dictGet st.alias_to_base_type_map aliasArg with
    | some b =>
      (name, b, { st with alias_to_base_type_map := dictSet st.alias_to_base_type_map name b })
    | none => (name, aliasArg, st)

/-- `VOutputGenerator.genVType` (src/vgenerator.py lines 594-790): the
V-facing translation pass.  The always-true `is not None` guards on the
string tuples of `v_params` (lines 694-699 and 709-714) make both branches
append, which is embedded as the single append.  The potential
`IndexError`s on `v_params[0]` (lines 669 and 746) are embedded as
`Except.error`. -/
def genVType (te : TypeElem) (name : String) (aliasArg : Option String)
    (apientry : String) (misracppstyle : Bool) (st : GenState) :
    Except String (Option (Option String × String) × GenState) := do
  let category := te.category
  let sec := if category = some "funcpointer" then some "struct" else category
  if category = some "struct" ∨ category = some "union" then
    Except.error "genStruct branch (outside the modelled scope)"
  else
    let dep ← deprecationComment te.deprecated (pyShowOpt te.nameAttr) 0
    let mut body := dep
    let mut v_name := ""
    let mut v_value := ""
    let mut v_type := ""
    let mut v_text := ""
    let mut v_is_handle := false
    let v_is_function_pointer := pyStartsWith name "PFN_"
    let mut v_params : List (String × String) := []
    let mut nameVar := name
    let mut stv := st
    if pyTruthyOpt aliasArg then
      let (n2, a2, st2) := v_translate_c_name_to_basetype stv name (aliasArg.getD "")
      nameVar := n2
      stv := st2
      body := body ++ "pub type " ++ n2 ++ " = " ++ a2 ++ "\n"
    else
      for el in te.children do
        if el.tag = "apientry" then
          body := body ++ apientry ++ noneStr el.tail
        else if el.tag = "type" then
          if noneStr el.text = "VK_DEFINE_HANDLE" then
            v_type := "&" ++ ("C.Vk" ++ nameVar)
            v_is_handle := true
          else if noneStr el.text = "VK_DEFINE_NON_DISPATCHABLE_HANDLE" then
            v_type := "&" ++ ("C." ++ nameVar)
            v_is_handle := true
          else
            v_type := noneStr el.text
            let mut param_name := pyStrip (pyReplace (pyReplace (pyReplace (pyReplace
              (pyReplace (noneStr el.tail) "," "") " " "") ")" "") ";" "") "\nconst" "")
            match dictGet TYPE_MAP v_type with
            | some t => v_type := t
            | none => pure ()
            v_type := removeVk v_type
            if pyContains nameVar "PFN_" ∧ pyContains body "*" then
              match v_params with
              | [] => Except.error "IndexError on v_params[0]"
              | p0 :: rest => v_params := (p0.1, "voidptr") :: rest
            if pyContains param_name "*" then
              let ptr_count := pyCountChar param_name '*'
              param_name := pyStrip (pyReplace (pyReplace param_name "*" "") "const" "")
              v_type := String.mk (List.replicate ptr_count '&') ++ v_type
              if pyReplace v_type "&" "" = "" then
                v_type := "voidptr"
            else
              pure ()
            v_type := removeVk v_type
            v_name := removeVk v_name
            param_name := removeVk param_name
            v_params := v_params ++ [(param_name, v_type)]
          v_text := "type"
        else if el.tag = "name" then
          v_name := removeVk nameVar
          if v_is_handle then
            stv := { stv with c_struct_arr := stv.c_struct_arr ++ [v_name],
                              c_struct_arr_with_vk := stv.c_struct_arr_with_vk ++ [v_name] }
          v_params := v_params ++ [(v_name, "")]
          v_text := "type"
        if category = some "define" ∧ misracppstyle then
          body := pyReplace body "(uint32_t)" "static_cast<uint32_t>"
        else
          v_value := noneStr el.text ++ pyReplace (noneStr el.tail) ";" ""
          v_text := "type"
    v_type := removeVk v_type
    v_name := removeVk v_name
    v_value := removeVk v_value
    if v_text = "type" ∧ BASE_TYPES_ARR.contains v_type then
      stv := { stv with alias_to_base_type_map := dictSet stv.alias_to_base_type_map v_name v_type }
    if v_is_handle then
      body := "// Pointer to " ++ nameVar ++ "_T\npub type " ++ v_name ++ " = voidptr"
      stv := { stv with alias_to_base_type_map := dictSet stv.alias_to_base_type_map v_name "voidptr" }
    else if v_is_function_pointer then
      let mut v_params_str := ""
      for p in v_params.drop 1 do
        v_params_str := v_params_str ++ "\n  " ++ p.2 ++ ","
      v_params_str := pySliceToNeg v_params_str 1
      match v_params with
      | [] => Except.error "IndexError on v_params[0]"
      | p0 :: _ =>
        body := "pub type " ++ v_name ++ " = fn (" ++ v_params_str ++ ") " ++ p0.2
        body := pyJoin " " (pySplitChar body '\n')
    else if pyTruthy v_text ∧ pyTruthy v_name ∧ pyTruthy v_type then
      if BASE_TYPES_ARR.contains v_type then
        stv := { stv with alias_to_base_type_map := dictSet stv.alias_to_base_type_map v_name v_type }
      else
        match dictGet stv.alias_to_base_type_map v_type with
        | some b =>
          v_type := b
          stv := { stv with alias_to_base_type_map := dictSet stv.alias_to_base_type_map v_name b }
        | none => pure ()
      let (n3, t3, st3) := v_translate_c_name_to_basetype stv v_name v_type
      v_name := n3
      v_type := t3
      stv := st3
      if v_type = "MAKE_API_VERSION" then
        body := "pub const " ++ pyLower v_name ++ " = " ++
          pyReplace (pyLower v_value) "vk_header_version" "header_version"
      else
        body := "pub " ++ v_text ++ " " ++ v_name ++ " = " ++ v_type
    else if pyTruthy v_value ∧ pyTruthy v_text ∧ ¬(category = some "basetype") then
      body := "pub " ++ v_text ++ " " ++ v_value ++ " = " ++ v_name
    else if pyTruthy v_value ∧ pyTruthy v_text ∧ category = some "basetype" then
      body := "pub type " ++ v_value ++ " = C." ++ v_value ++
        "\n@[typedef]\npub struct C." ++ v_value ++ " \x7b\x7d"
    else
      if category = some "include" ∨ category = some "define" then
        return (none, stv)
      else if category = some "bitmask" ∨ category = some "handle" then
        if pyTruthyOpt aliasArg ∧ pyTruthy nameVar then
          let (n4, a4, st4) := v_translate_c_name_to_basetype stv nameVar (aliasArg.getD "")
          nameVar := n4
          stv := st4
          body := "pub type " ++ n4 ++ " = " ++ a4
      else
        return (none, stv)
    if pyTruthy body then
      let bodyF := if pyContains (pySliceToNeg body 1) "\n" then body ++ "\n" else body
      return (some (sec, bodyF), stv)
    else
      return (none, stv)

/-- First index of `pat` in `s` (Python `s.index`); returns the length of
`s` when absent, where Python would raise `ValueError` — every use below is
guarded by a containment test that makes the absent case unreachable. -/
def firstIndexOfSub (s pat : String) : Nat :=
  let l := s.toList
  let pl := pat.toList
  match (List.range (l.length + 1)).find? (fun i => pl.isPrefixOf (l.drop i)) with
  | some i => i
  | none => l.length

/-- The sequential `if pattern in c_body: body = ...` chain of `genType`
(src/vgenerator.py lines 1956-2020), folded over `VERSION_REWRITES` in
source order (a later matching pattern overwrites an earlier one). -/
def applyVersionRewrites (c_body body : String) : String :=
  VERSION_REWRITES.foldl (fun b p => if pyContains c_body p.1 then p.2 else b) body

/-- The `VK_HEADER_VERSION` constant conversion of `genType`
(src/vgenerator.py lines 1949-1953): applied when `c_body` starts with the
given comment line; extracts `c_body[idx:-1]` where `idx` is one past the
first `VK_HEADER_VERSION` occurrence. -/
def headerVersionRewrite (c_body body : String) : String :=
  if pyStartsWith c_body "// Version of this file\n#define VK_HEADER_VERSION " then
    let version_index := firstIndexOfSub c_body "VK_HEADER_VERSION" + "VK_HEADER_VERSION".length + 1
    "pub const header_version = " ++ pySliceToNeg (pyDrop c_body version_index) 1
  else body

/-- `VOutputGenerator.genType` (src/vgenerator.py lines 1908-2023): run the
description-facing pass, early-return on a missing result or a
`// DEPRECATED:` opening, capture replacement candidates, run the V-facing
pass, choose the manual replacement or the mechanical text, apply the
version-macro rewrites and append to the section.  `validateFeature` and
the framework `OutputGenerator.genType` bookkeeping touch none of the
embedded state. -/
def genType (st : GenState) (te : TypeElem) (name : String) (aliasArg : Option String)
    (apientry : String) (misracppstyle : Bool) : Except String GenState := do
  let curC ← genCType te name aliasArg apientry misracppstyle
  match curC with
  | none => return st
  | some (c_sec, c_body) =>
    if pyStartsWith c_body "// DEPRECATED:" then
      return st
    else
      let esc_text := escStr c_body
      let captures := (REPLACEMENT_CONTAINS_ARR.filter (fun tr => pyContains c_body tr)).map
        (fun _ => esc_text)
      let st := { st with
        replacement_exact_text_arr := st.replacement_exact_text_arr ++ captures }
      let (curV, st) ← genVType te name aliasArg apientry misracppstyle st
      match curV with
      | none => return st
      | some (v_sec, v_body) =>
        let (body, sec) :=
          if dictHasKey REPLACEMENT_MAP c_body then
            ((dictGet REPLACEMENT_MAP c_body).getD "", c_sec)
          else (v_body, v_sec)
        let body := headerVersionRewrite c_body body
        let body := applyVersionRewrites c_body body
        appendSection st sec body

/-- A concrete framework configuration used by the closed sample runs:
emission enabled, naming policy approving every feature, no prototype
guards. -/
def sampleEndFeatureEnv : EndFeatureEnv :=
  { emit := true
    featureName := "VK_VERSION_1_0"
    featureExtraProtect := none
    api_prefix := "VK_"
    writeFeature := fun _ _ _ => true
    protectProtoComment := false
    protectFeature := true
    genFuncPointers := true
    protectProto := none
    protectProtoStr := none
    protectExtensionProto := none
    protectExtensionProtoStr := none
    filename := "vulkan.v" }

/-!
## Helper lemmas
-/

/-- `sideFileEntry` concatenation over a whole candidate list, used to state
the shape of the exported side file. -/
def sideFileEntriesConcat : List String → String
  | [] => ""
  | itm :: t => sideFileEntry itm ++ sideFileEntriesConcat t

theorem replAux_self (p : List Char) : ∀ (n : Nat) (l : List Char), replAux p p n l = l := by
  intro n
  induction n with
  | zero => intro l; cases l <;> rfl
  | succ n ih =>
    intro l
    cases l with
    | nil => rfl
    | cons c t =>
      simp only [replAux]
      by_cases h : p.isPrefixOf (c :: t) = true
      · rw [if_pos h, ih]
        obtain ⟨r, hr⟩ := List.isPrefixOf_iff_prefix.mp h
        rw [← hr, List.drop_left]
      · rw [if_neg h, ih]

theorem escStr_id (s : String) : escStr s = s := by
  unfold escStr pyReplace
  rw [replAux_self, replAux_self]
  cases s
  rfl

theorem strAppend_assoc (a b c : String) : (a ++ b) ++ c = a ++ (b ++ c) := by
  apply String.ext
  simp [String.data_append, List.append_assoc]

theorem strAppend_empty (a : String) : a ++ "" = a := by
  apply String.ext
  simp [String.data_append]

theorem strEmpty_append (a : String) : "" ++ a = a := by
  apply String.ext
  simp [String.data_append]

theorem key_strings_concat : ∀ (arr : List String) (init : String),
    arr.foldl (fun ks itm => ks ++ "'" ++ endFileEsc itm ++ "':\n    '',\n    ") init
      = init ++ sideFileEntriesConcat arr := by
  intro arr
  induction arr with
  | nil => intro init; simp [sideFileEntriesConcat, strAppend_empty]
  | cons a t ih =>
    intro init
    rw [List.foldl_cons, ih, sideFileEntriesConcat]
    simp only [sideFileEntry, strAppend_assoc]

theorem isError_bind {β γ : Type} (x : Except String β) (g : β → Except String γ)
    (h : exceptIsError x = true) : exceptIsError (x >>= g) = true := by
  cases x with
  | error e => rfl
  | ok a => simp [exceptIsError] at h

theorem foldlM_isError_of_mem {α β : Type} (step : β → α → Except String β) (P : α → Prop)
    (hstep : ∀ acc m, P m → exceptIsError (step acc m) = true) :
    ∀ (ms : List α) (acc : β), (∃ m ∈ ms, P m) →
      exceptIsError (ms.foldlM step acc) = true := by
  intro ms
  induction ms with
  | nil => intro acc h; simp at h
  | cons m t ih =>
    intro acc hex
    rw [List.foldlM_cons]
    cases hs : step acc m with
    | error e => simp [hs, exceptIsError, Bind.bind, Except.bind]
    | ok acc2 =>
      rcases hex with ⟨w, hw, hPw⟩
      rcases List.mem_cons.mp hw with rfl | hwt
      · have := hstep acc w hPw
        rw [hs] at this
        simp [exceptIsError] at this
      · simp only [hs, Bind.bind, Except.bind]
        exact ih acc2 ⟨w, hwt, hPw⟩

theorem bitmaskStep_isError (ftn : String) (ud mcpp : Bool) (reg : RegistryEnums)
    (acc : String × String) (m : EnumMember)
    (h : ∃ v, m.numVal = some v ∧ ((2 ^ 64 - 1 : Int) < v ∨ v < 0)) :
    exceptIsError (bitmaskMemberStep ftn ud mcpp reg acc m) = true := by
  obtain ⟨v, hv, hr⟩ := h
  unfold bitmaskMemberStep
  rw [if_pos]
  · rfl
  · refine ⟨by simp [hv], ?_⟩
    rw [hv]
    simpa using hr

theorem enumStep_isError (gname : String) (kv isE : Bool) (acc : EnumLoopAcc) (m : EnumMember)
    (h : ∃ v, m.numVal = some v ∧ ((2 ^ 31 - 1 : Int) < v ∨ v < -(2 ^ 31)))
    (hnp : ¬(m.required = true ∧ m.protect.isSome = true)) :
    exceptIsError (enumMemberStep gname kv isE acc m) = true := by
  obtain ⟨v, hv, hr⟩ := h
  have hcond : v > (2 ^ 31 - 1 : Int) ∨ v < -(2 ^ 31 : Int) := by
    rcases hr with h | h
    · exact Or.inl h
    · exact Or.inr h
  unfold enumMemberStep
  rw [if_neg hnp]
  cases hreq : m.required with
  | false =>
    simp only [hreq, Bind.bind, Except.bind, Bool.false_eq_true, reduceIte, pure, Except.pure]
    rw [hv]
    have hcond2 : (2147483647 : Int) < v ∨ v < -2147483648 := by simpa using hcond
    simp [hcond2, exceptIsError, Except.bind]
  | true =>
    cases hdep : deprecationComment m.deprecated m.name 2 with
    | error e =>
      simp [hreq, hdep, Bind.bind, Except.bind, exceptIsError]
    | ok d =>
      simp only [hreq, hdep, Bind.bind, Except.bind, reduceIte, pure, Except.pure]
      rw [hv]
      have hcond2 : (2147483647 : Int) < v ∨ v < -2147483648 := by simpa using hcond
      simp [hcond2, exceptIsError, Except.bind]

/-!
## Claims
-/

/-- C1 counterexample: the claim states that every namespace-prefixed
identifier other than the boolean spellings loses exactly its recognized
prefix once; for `"vk_vkx"` (recognized prefix `vk_`, one removal gives
`"vkx"`) the code strips the remaining `vk` as well and returns `"x"`. -/
theorem C1_counterexample : removeVk "vk_vkx" = "x" ∧ ("x" : String) ≠ "vkx" :=
  ⟨by decide, by decide⟩

/-- C1 (amended): `removeVk` returns the two boolean-like spellings with
only the two-character `vk` removed (keeping their `_true`/`_false` short
forms); any other identifier starting with `vk_` loses that prefix and, if
the remainder again starts with `vk`, that secondary `vk` as well; any
other identifier starting with `vk` (but not `vk_`) loses exactly `vk`
once. -/
theorem C1_removeVk_amended (s : String) :
    (pyLower s = "vk_true" ∨ pyLower s = "vk_false" → removeVk s = pyDrop s 2)
  ∧ (¬(pyLower s = "vk_true" ∨ pyLower s = "vk_false") →
      pyStartsWith (pyLower s) "vk_" = true →
      removeVk s =
        (if pyStartsWith (pyLower (pyDrop s 3)) "vk" = true then pyDrop (pyDrop s 3) 2
         else pyDrop s 3))
  ∧ (¬(pyLower s = "vk_true" ∨ pyLower s = "vk_false") →
      pyStartsWith (pyLower s) "vk_" = false →
      pyStartsWith (pyLower s) "vk" = true →
      removeVk s = pyDrop s 2) := by
  refine ⟨fun h => by simp [removeVk, h], fun h h2 => ?_, fun h h2 h3 => ?_⟩
  · simp only [removeVk, if_neg h, removeVk_step1, if_pos h2, removeVk_step2]
  · simp only [removeVk, if_neg h, removeVk_step1, removeVk_step2, h2]
    simp [h3]

/-- C1 witness: the amended theorem applied to the concrete identifier
`"VkInstance"`. -/
theorem C1_witness : removeVk "VkInstance" = pyDrop "VkInstance" 2 :=
  (C1_removeVk_amended "VkInstance").2.2 (by decide) (by decide) (by decide)

/-- C2 counterexample: for a plain enumeration group with no
maximum-valued member, the sentinel appended by `buildEnumVDecl_Enum` of
the Primary Generator is named `max_enum` (no group prefix) with value
spelled `max_int`, not `<prefix>_max_enum<suffix> = 0x7FFFFFFF` as the
claim states; and when a member already spells `int(0x7FFFFFFF)` no
sentinel at all is appended. -/
theorem C2_counterexample :
    buildEnumVDecl_Enum false none "VkFoo"
      [⟨"VK_FOO_ONE", some 1, "1", true, none, none, none⟩] false true false initGenState
      = Except.ok ("group", "pub enum VkFoo as u32 \x7b\n    one = 1\n    max_enum = max_int\n\x7d",
          { initGenState with enum_types := ["VkFoo"] })
  ∧ pyContains "pub enum VkFoo as u32 \x7b\n    one = 1\n    max_enum = max_int\n\x7d" "0x7FFFFFFF" = false
  ∧ pyContains "pub enum VkFoo as u32 \x7b\n    one = 1\n    max_enum = max_int\n\x7d" "foo_max_enum" = false
  ∧ pyContains "pub enum VkFoo as u32 \x7b\n    one = 1\n    max_enum = max_int\n\x7d" "    max_enum = max_int" = true
  ∧ buildEnumVDecl_Enum false none "VkFoo"
      [⟨"VK_FOO_ONE", some 1, "1", true, none, none, none⟩,
       ⟨"VK_FOO_BIG", some 2147483647, "0x7FFFFFFF", true, none, none, none⟩]
      false true false initGenState
      = Except.ok ("group", "pub enum VkFoo as u32 \x7b\n    one = 1\n    big = u32(0x7FFFFFFF)\n\x7d",
          { initGenState with enum_types := ["VkFoo"] })
  ∧ pyContains "pub enum VkFoo as u32 \x7b\n    one = 1\n    big = u32(0x7FFFFFFF)\n\x7d" "max_enum" = false :=
  ⟨rfl, by decide, by decide, by decide, rfl, by decide⟩

/-- C2 (amended): in the Primary Generator, when the options request code
generation, the sentinel block of `buildEnumVDecl_Enum` appends exactly one
sentinel line `    max_enum<suffix> = max_int` (no group prefix; `max_int`
is the target language constant for `2^31 - 1`) unless some already
collected line contains one of the two recognized spellings
`int(0x7FFFFFFF)` / `int(0xFFFFFFFF)`, in which case nothing is appended;
the sentinel never contains the literal `0x7FFFFFFF`. -/
theorem C2_sentinel_amended (codeGen docs : Bool) (suf : String) (body : List String)
    (hgate : codeGen = true ∨ docs = true) :
    ((body.filter (fun x =>
        pyContains x "int(0x7FFFFFFF)" || pyContains x "int(0xFFFFFFFF)")).length = 0 →
      enumSentinelStep codeGen docs suf body =
        body ++ ["    max_enum" ++ pyLower suf ++ " = max_int"])
  ∧ ((body.filter (fun x =>
        pyContains x "int(0x7FFFFFFF)" || pyContains x "int(0xFFFFFFFF)")).length ≠ 0 →
      enumSentinelStep codeGen docs suf body = body)
  ∧ pyContains ("    max_enum" ++ pyLower "" ++ " = max_int") "0x7FFFFFFF" = false
  ∧ pyContains ("    max_enum" ++ pyLower "_KHR" ++ " = max_int") "0x7FFFFFFF" = false := by
  have hg : (codeGen || docs) = true := by rcases hgate with h | h <;> simp [h]
  refine ⟨fun h => ?_, fun h => ?_, by decide, by decide⟩
  · simp [enumSentinelStep, hg, h]
  · simp [enumSentinelStep, hg, Nat.le_zero, h]

/-- C2 witness: the amended sentinel theorem applied to a concrete group
body with no maximum-valued member. -/
theorem C2_witness :
    enumSentinelStep true false "" ["pub enum VkFoo TT\x7b", "    one = 1"] =
      ["pub enum VkFoo TT\x7b", "    one = 1", "    max_enum = max_int"] :=
  (C2_sentinel_amended true false "" ["pub enum VkFoo TT\x7b", "    one = 1"] (Or.inl rfl)).1
    (by decide)

/-- C3 counterexample: the claim states that mutating a translation table
through one generator instance leaves the table observed through another
instance unchanged; appending to `ENUM_TYPES` through instance 0 changes
what instance 1 observes, because the table is one shared class attribute. -/
theorem C3_counterexample :
    observeEnumTypesVia (appendEnumTypeVia (pyNewInstance (pyNewInstance initPyWorld)) 0 "VkFoo") 1
      ≠ observeEnumTypesVia (pyNewInstance (pyNewInstance initPyWorld)) 1 := by decide

/-- C3 (amended): the accumulator tables are class-level state shared by
all instances of the generator class: a mutation performed through any
instance is observed identically through every instance, while the
per-instance section table is untouched by table mutations. -/
theorem C3_instance_sharing_amended :
    (∀ w i j g, observeEnumTypesVia (appendEnumTypeVia w i g) j = observeEnumTypesVia w j ++ [g])
  ∧ (∀ w i j n a, observeAliasMapVia (setAliasBaseVia w i n a) j =
      dictSet (observeAliasMapVia w j) n a)
  ∧ (∀ w i g, (appendEnumTypeVia w i g).insts = w.insts)
  ∧ (∀ w i g j, observeSectionsVia (appendEnumTypeVia w i g) j = observeSectionsVia w j) :=
  ⟨fun _ _ _ _ => rfl, fun _ _ _ _ _ => rfl, fun _ _ _ => rfl, fun _ _ _ _ => rfl⟩

set_option maxRecDepth 10000 in
/-- C4 counterexample: one emitted fragment containing two replacement
trigger substrings is captured twice, so the side file holds two identical
entries for one distinct captured fragment, against the claimed
one-entry-per-distinct-fragment shape. -/
theorem C4_counterexample :
    ((appendSection initGenState (some "define")
        "x #define VK_VERSION_MAJOR y #define VK_VERSION_MINOR z").toOption.map
      (fun st => st.replacement_exact_text_arr))
      = some ["x #define VK_VERSION_MAJOR y #define VK_VERSION_MINOR z",
              "x #define VK_VERSION_MAJOR y #define VK_VERSION_MINOR z"]
  ∧ pyCountSub
      (endFile_content ["x #define VK_VERSION_MAJOR y #define VK_VERSION_MINOR z",
                        "x #define VK_VERSION_MAJOR y #define VK_VERSION_MINOR z"])
      (sideFileEntry "x #define VK_VERSION_MAJOR y #define VK_VERSION_MINOR z") = 2
  ∧ (["x #define VK_VERSION_MAJOR y #define VK_VERSION_MINOR z",
      "x #define VK_VERSION_MAJOR y #define VK_VERSION_MINOR z"] : List String).dedup.length = 1 :=
  ⟨by decide, by decide, by decide⟩

/-- C4 (amended): the side file written by `endFile` contains exactly one
entry per capture occurrence of the Replacement Candidate List, in order —
a fragment is recorded once per matching trigger substring per emission, so
duplicates are possible — each entry keyed by the captured fragment
(`escStr` is the identity) with backslashes doubled and newlines rendered
as the two-character sequence, and an empty placeholder value. -/
theorem C4_ledger_amended :
    (∀ s, escStr s = s)
  ∧ (∀ arr, endFile_content arr = sideFileHeader ++ sideFileEntriesConcat arr ++ "\n\x7d")
  ∧ (∀ itm, sideFileEntry itm =
      "'" ++ pyReplace (pyReplace itm "\\" "\\\\") "\n" "\\n" ++ "':\n    '',\n    ")
  ∧ (∀ st sec text st', appendSection st (some sec) text = Except.ok st' →
      st'.replacement_exact_text_arr = st.replacement_exact_text_arr ++
        (REPLACEMENT_CONTAINS_ARR.filter
          (fun tr => pyContains (appendSectionWrap text) tr)).map
          (fun _ => escStr (appendSectionWrap text))) := by
  refine ⟨escStr_id, ?_, ?_, ?_⟩
  · intro arr
    unfold endFile_content endFile_key_strings
    rw [key_strings_concat, strEmpty_append]
  · intro itm
    unfold sideFileEntry endFileEsc
    rw [escStr_id]
  · intro st sec text st' h
    simp only [appendSection] at h
    cases hda : dictListAppend st.sections sec
        (match dictGet REPLACEMENT_MAP (escStr (appendSectionWrap text)) with
         | some v => v
         | none => appendSectionWrap text) with
    | none => rw [hda] at h; simp at h
    | some secs =>
      rw [hda] at h
      simp only [Except.ok.injEq] at h
      rw [← h]

/-- C4 witness: the amended theorem applied to a fragment that is itself a
trigger substring, captured exactly once. -/
theorem C4_witness :
    escStr "a\\b" = "a\\b"
  ∧ appendSection initGenState (some "define") "#define VK_DEFINE_HANDLE" = Except.ok
      { sections := [("include", []), ("define", ["#define VK_DEFINE_HANDLE"]), ("basetype", []),
                     ("handle", []), ("enum", []), ("group", []), ("bitmask", []),
                     ("funcpointer", []), ("struct", []), ("commandPointer", []), ("command", [])]
        feature_not_empty := true
        replacement_exact_text_arr := ["#define VK_DEFINE_HANDLE"]
        structure_types := []
        enum_types := []
        alias_to_base_type_map := []
        c_struct_arr := []
        c_struct_arr_with_vk := [] }
  ∧ ({ sections := [("include", []), ("define", ["#define VK_DEFINE_HANDLE"]), ("basetype", []),
                     ("handle", []), ("enum", []), ("group", []), ("bitmask", []),
                     ("funcpointer", []), ("struct", []), ("commandPointer", []), ("command", [])]
       feature_not_empty := true
       replacement_exact_text_arr := ["#define VK_DEFINE_HANDLE"]
       structure_types := []
       enum_types := []
       alias_to_base_type_map := []
       c_struct_arr := []
       c_struct_arr_with_vk := [] } : GenState).replacement_exact_text_arr =
      initGenState.replacement_exact_text_arr ++
        (REPLACEMENT_CONTAINS_ARR.filter
          (fun tr => pyContains (appendSectionWrap "#define VK_DEFINE_HANDLE") tr)).map
          (fun _ => escStr (appendSectionWrap "#define VK_DEFINE_HANDLE")) :=
  ⟨C4_ledger_amended.1 "a\\b", rfl,
   C4_ledger_amended.2.2.2 initGenState "define" "#define VK_DEFINE_HANDLE" _ rfl⟩

/-- C5: evaluation of the camel-to-snake case fold on the four examples
documented in the source comments (src/vgenerator.py lines 222-226).  The
third and fourth examples hold; the first and second do not: the regex
yields `physical_device_vulkan13_features` and
`physical_device16_bit_storage_features`, contradicting the documented
outputs `physical_device_vulkan1_3_features` and
`physical_device16bit_storage_features`. -/
theorem C5_camel_examples :
    v_camel_to_snake_case "PhysicalDeviceVulkan13Features" = "physical_device_vulkan13_features"
  ∧ v_camel_to_snake_case "PhysicalDevice16BitStorageFeatures" = "physical_device16_bit_storage_features"
  ∧ v_camel_to_snake_case "BufferMemoryRequirementsInfo2" = "buffer_memory_requirements_info2"
  ∧ v_camel_to_snake_case "PhysicalDeviceIDProperties" = "physical_device_id_properties"
  ∧ v_camel_to_snake_case "PhysicalDeviceVulkan13Features" ≠ "physical_device_vulkan1_3_features"
  ∧ v_camel_to_snake_case "PhysicalDevice16BitStorageFeatures" ≠ "physical_device16bit_storage_features" :=
  ⟨by decide, by decide, by decide, by decide, by decide, by decide⟩

/-- C6 counterexample: a plain-enumeration group whose only member is
required, carries a platform-protect attribute and has the out-of-range
value `2^31` is generated successfully — the `continue` for protected
members precedes the range check — against the claimed unconditional
abort. -/
theorem C6_counterexample :
    buildEnumVDecl_Enum false none "VkFoo"
      [⟨"VK_FOO_HUGE", some 2147483648, "0x80000000", true, some "VK_USE_PLATFORM_XYZ", none, none⟩]
      false true false initGenState
      = Except.ok ("group", "pub enum VkFoo as u32 \x7b\n    max_enum = max_int\n\x7d",
          { initGenState with enum_types := ["VkFoo"] })
  ∧ ((2 ^ 31 - 1 : Int) < 2147483648) := ⟨rfl, by decide⟩

/-- C6 (amended): a bitmask/define-strategy group containing a member
whose numeric value exceeds `2^64 - 1` or is below 0 always aborts with a
reported error; an enumerated-type-strategy group containing a member
whose numeric value lies outside `[-2^31, 2^31-1]` aborts unless that
member is required and platform-protected (such members are skipped before
the range check). -/
theorem C6_range_amended :
    (∀ gname bw ud mcpp members reg st,
      (∃ m ∈ members, ∃ v, EnumMember.numVal m = some v ∧ ((2 ^ 64 - 1 : Int) < v ∨ v < 0)) →
      exceptIsError (buildEnumVDecl_BitmaskOrDefine gname bw ud mcpp members reg st) = true)
  ∧ (∀ expand gta gname members kv cg docs st,
      (∃ m ∈ members, (∃ v, EnumMember.numVal m = some v ∧
          ((2 ^ 31 - 1 : Int) < v ∨ v < -(2 ^ 31))) ∧
        ¬(EnumMember.required m = true ∧ (EnumMember.protect m).isSome = true)) →
      exceptIsError (buildEnumVDecl_Enum expand gta gname members kv cg docs st) = true) := by
  constructor
  · intro gname bw ud mcpp members reg st hex
    unfold buildEnumVDecl_BitmaskOrDefine
    apply isError_bind
    exact foldlM_isError_of_mem _ _ (fun acc m hm => bitmaskStep_isError _ _ _ _ acc m hm)
      members _ hex
  · intro expand gta gname members kv cg docs st hex
    unfold buildEnumVDecl_Enum
    apply isError_bind
    refine foldlM_isError_of_mem _
      (fun m => (∃ v, EnumMember.numVal m = some v ∧
          ((2 ^ 31 - 1 : Int) < v ∨ v < -(2 ^ 31))) ∧
        ¬(EnumMember.required m = true ∧ (EnumMember.protect m).isSome = true))
      (fun acc m hm => enumStep_isError _ _ _ acc m hm.1 hm.2) members _ hex

/-- C6 witness: the amended theorem applied to a 64-bit bitmask group with
value `2^64` and to an unprotected enum member with value `2^31`. -/
theorem C6_witness :
    exceptIsError (buildEnumVDecl_BitmaskOrDefine "VkAccessFlagBits2" 64 false false
      [⟨"VK_X", some (2 ^ 64), "BIG", true, none, none, none⟩] [] initGenState) = true
  ∧ exceptIsError (buildEnumVDecl_Enum false none "VkFoo"
      [⟨"VK_FOO_HUGE", some 2147483648, "0x80000000", true, none, none, none⟩]
      false true false initGenState) = true :=
  ⟨C6_range_amended.1 "VkAccessFlagBits2" 64 false false _ [] initGenState
      ⟨_, List.mem_singleton.mpr rfl, ⟨2 ^ 64, rfl, by decide⟩⟩,
   C6_range_amended.2 false none "VkFoo" _ false true false initGenState
      ⟨_, List.mem_singleton.mpr rfl, ⟨⟨2147483648, rfl, by decide⟩, by decide⟩⟩⟩

/-- C7: mutability inference of `makeVParamDecl` in function-parameter
context.  The `mut` marker is prepended exactly when the inference fires;
a parameter whose stripped base type is a literal base type, a known enum
type, or an alias resolving to a base type is not marked; a struct-shaped
or pointer-to-struct parameter (stripping sigils preserves the decision) is
marked; a `const` parameter is never marked. -/
theorem C7_mutability :
    (∀ ic dsm t pd et am, makeVParamDecl_setMut ic dsm t pd et am =
        (if makeVParamDecl_isMut ic dsm t et am then "mut" ++ pd else pd))
  ∧ (∀ t, mutRegexGroup1 ("&" ++ t) = mutRegexGroup1 t)
  ∧ (∀ t (et : List String) am, mutRegexGroup1 t ∈ BASE_TYPES_ARR →
      makeVParamDecl_isMut false false t et am = false)
  ∧ (∀ t (et : List String) am, mutRegexGroup1 t ∈ et →
      makeVParamDecl_isMut false false t et am = false)
  ∧ (∀ t (et : List String) am b, dictGet am (mutRegexGroup1 t) = some b → b ∈ BASE_TYPES_ARR →
      makeVParamDecl_isMut false false t et am = false)
  ∧ (∀ t (et : List String) am, mutRegexGroup1 t ∉ et →
      mutRegexGroup1 t ∉ BASE_TYPES_ARR →
      (dictHasKey am (mutRegexGroup1 t) = false ∨
        (dictGet am (mutRegexGroup1 t)).getD "" ∉ BASE_TYPES_ARR) →
      makeVParamDecl_isMut false false t et am = true)
  ∧ (∀ dsm t (et : List String) am, makeVParamDecl_isMut true dsm t et am = false) := by
  refine ⟨?_, ?_, ?_, ?_, ?_, ?_, ?_⟩
  · intro ic dsm t pd et am
    cases ic <;> cases dsm <;> simp [makeVParamDecl_setMut, makeVParamDecl_isMut]
  · intro t
    have h : ("&" ++ t).toList = '&' :: t.toList := by
      simp [String.toList, String.data_append]
    simp only [mutRegexGroup1, h]
    rw [List.length_cons]
    simp [stripAmpBrackets]
  · intro t et am h
    simp [makeVParamDecl_isMut, h]
  · intro t et am h
    simp [makeVParamDecl_isMut, h]
  · intro t et am b h hb
    have hk : dictHasKey am (mutRegexGroup1 t) = true := by
      unfold dictGet at h
      unfold dictHasKey
      match hf : List.find? (fun p => p.1 = mutRegexGroup1 t) am with
      | none => rw [hf] at h; simp at h
      | some p =>
        have hp := List.find?_some hf
        have hmem := List.mem_of_find?_eq_some hf
        simp only [decide_eq_true_eq] at hp
        exact List.any_eq_true.mpr ⟨p, hmem, by simp [hp]⟩
    simp [makeVParamDecl_isMut, hk, h, hb]
  · intro t et am h1 h2 h3
    rcases h3 with h3 | h3 <;> simp [makeVParamDecl_isMut, h1, h2, h3]
  · intro dsm t et am
    simp [makeVParamDecl_isMut]

/-- C7 witness: the mutability theorem applied to one literal base type,
one known enum type, one alias resolving to a base type, one struct-shaped
type, one pointer-to-struct type, and one `const` parameter. -/
theorem C7_witness :
    makeVParamDecl_isMut false false "u32" [] [] = false
  ∧ makeVParamDecl_isMut false false "SampleCountFlagBits" ["SampleCountFlagBits"] [] = false
  ∧ makeVParamDecl_isMut false false "Flags" [] [("Flags", "u32")] = false
  ∧ makeVParamDecl_isMut false false "DeviceCreateInfo" [] [] = true
  ∧ makeVParamDecl_isMut false false "&DeviceCreateInfo" [] [] = true
  ∧ makeVParamDecl_isMut true false "DeviceCreateInfo" [] [] = false
  ∧ makeVParamDecl_setMut false false "&DeviceCreateInfo" " p_create_info &DeviceCreateInfo" [] []
      = "mut p_create_info &DeviceCreateInfo" :=
  ⟨C7_mutability.2.2.1 "u32" [] [] (by decide),
   C7_mutability.2.2.2.1 "SampleCountFlagBits" ["SampleCountFlagBits"] [] (by decide),
   C7_mutability.2.2.2.2.1 "Flags" [] [("Flags", "u32")] "u32" (by decide) (by decide),
   C7_mutability.2.2.2.2.2.1 "DeviceCreateInfo" [] [] (by decide) (by decide)
     (Or.inl (by decide)),
   C7_mutability.2.2.2.2.2.1 "&DeviceCreateInfo" [] [] (by decide) (by decide)
     (Or.inl (by decide)),
   C7_mutability.2.2.2.2.2.2 false "DeviceCreateInfo" [] [],
   by decide⟩

/-- C8 counterexample: a feature during which `appendSection` delivered
only one empty fragment has every stored fragment empty, yet `endFeature`
writes guard lines and blank lines — the feature flag is set by any append,
empty or not. -/
theorem C8_counterexample :
    (runAppendList (beginFeatureReset initGenState) [(some "define", "")]).toOption.map
      (fun st => (st.sections.all (fun p => p.2.all (fun f => f = "")),
                  (endFeature sampleEndFeatureEnv st).toOption))
      = some (true, some "\n#ifndef version_1_0\n\n\n#endif\n")
  ∧ ("\n#ifndef version_1_0\n\n\n#endif\n" : String) ≠ "" :=
  ⟨by decide, by decide⟩

/-- C8 (amended): a feature during which `appendSection` was never invoked
(no fragment delivered at all, empty or not) produces no output from
`endFeature`, for every configuration. -/
theorem C8_empty_feature_amended (env : EndFeatureEnv) (st : GenState) :
    runAppendList (beginFeatureReset st) [] = Except.ok (beginFeatureReset st)
  ∧ endFeature env (beginFeatureReset st) = Except.ok "" := by
  constructor
  · rfl
  · unfold endFeature beginFeatureReset
    cases env.emit <;> simp [pure, Except.pure]

/-- C9 counterexample: the two demangling rules are not extensionally
equal — on `"VK_TRUE"` the Primary Generator returns `"_TRUE"` while the
backup generator returns the input unchanged. -/
theorem C9_counterexample : removeVk_bk "VK_TRUE" ≠ removeVk "VK_TRUE" := by decide

/-- C9 (amended): the camel-to-underscore rules of the two generators are
extensionally equal; the demangling rules agree on every input on which
none of the backup generator extra guards fires (the boolean spellings, a
`true`/`false` remainder after a strip, and the `C.Vk` prefix rewrite), and
differ otherwise. -/
theorem C9_equivalence_amended :
    (∀ s, v_camel_to_snake_case_bk s = v_camel_to_snake_case s)
  ∧ (∀ s, ¬(pyLower s = "vk_true" ∨ pyLower s = "vk_false") →
      (pyStartsWith (pyLower s) "vk_" = true →
        ¬(pyLower (pyDrop s 3) = "true" ∨ pyLower (pyDrop s 3) = "false")) →
      (pyStartsWith (pyLower (removeVk_step1 s)) "vk" = true →
        ¬(pyLower (pyDrop (removeVk_step1 s) 2) = "true" ∨
          pyLower (pyDrop (removeVk_step1 s) 2) = "false")) →
      pyStartsWith (pyLower (removeVk_step2 (removeVk_step1 s))) "c.vk" = false →
      removeVk_bk s = removeVk s) := by
  constructor
  · intro s; rfl
  · intro s h0 h1 h2 h3
    have e1 : removeVk_bk_step1 s = removeVk_step1 s := by
      unfold removeVk_bk_step1 removeVk_step1
      by_cases hs : pyStartsWith (pyLower s) "vk_" = true
      · have hg := h1 hs
        simp only [not_or] at hg
        simp [hs, hg.1, hg.2]
      · simp [hs]
    have e2 : removeVk_bk_step2 (removeVk_step1 s) = removeVk_step2 (removeVk_step1 s) := by
      unfold removeVk_bk_step2 removeVk_step2
      by_cases hs : pyStartsWith (pyLower (removeVk_step1 s)) "vk" = true
      · have hg := h2 hs
        simp only [not_or] at hg
        simp [hs, hg.1, hg.2]
      · simp [hs]
    have e3 : removeVk_bk_step3 (removeVk_step2 (removeVk_step1 s)) =
        removeVk_step2 (removeVk_step1 s) := by
      unfold removeVk_bk_step3
      simp [h3]
    unfold removeVk_bk removeVk
    rw [if_neg h0, if_neg h0, e1, e2, e3]

/-- C9 witness: the amended theorem applied to the concrete identifier
`"VkDevice"`. -/
theorem C9_witness : removeVk_bk "VkDevice" = removeVk "VkDevice" :=
  C9_equivalence_amended.2 "VkDevice" (by decide) (by decide) (by decide) (by decide)

/-- C10: when the description-facing reconstruction of a type begins with
`// DEPRECATED:`, `genType` is a no-op: it returns the state unchanged —
no section text, no replacement candidate, no table mutation. -/
theorem C10_deprecated_noop (st : GenState) (te : TypeElem) (name : String)
    (aliasArg : Option String) (apientry : String) (mcpp : Bool) (c_sec : Option String)
    (c_body : String)
    (hC : genCType te name aliasArg apientry mcpp = Except.ok (some (c_sec, c_body)))
    (hS : pyStartsWith c_body "// DEPRECATED:" = true) :
    genType st te name aliasArg apientry mcpp = Except.ok st := by
  unfold genType
  rw [hC]
  simp only [bind, Except.bind]
  rw [if_pos hS]
  rfl

/-- C10 witness: the no-op theorem applied to a concrete `define` element
whose text begins with the deprecation marker. -/
theorem C10_witness :
    genCType ⟨some "define", none, some "VK_FOO", some "// DEPRECATED: old\n#define FOO 1\n", []⟩
      "VK_FOO" none "" false
      = Except.ok (some (some "define", "// DEPRECATED: old\n#define FOO 1\n\n"))
  ∧ pyStartsWith "// DEPRECATED: old\n#define FOO 1\n\n" "// DEPRECATED:" = true
  ∧ genType initGenState
      ⟨some "define", none, some "VK_FOO", some "// DEPRECATED: old\n#define FOO 1\n", []⟩
      "VK_FOO" none "" false = Except.ok initGenState :=
  ⟨rfl, by decide,
   C10_deprecated_noop initGenState _ "VK_FOO" none "" false (some "define")
     "// DEPRECATED: old\n#define FOO 1\n\n" rfl (by decide)⟩

end VVK
